import Mathlib

/-!
# Overlay background pass with the GlassLink texture hand-off

A shallow embedding of `Background::begin_sync` from
`source/blender/draw/engines/overlay/overlay_next_background.hh`.

One call of `begin_sync` is a function `World → World`.  A `World` holds the
members of the `Background` object, the function-local static `iGlassLinkTex`,
the part of the GPU layer the function talks to (the textures that are alive)
and the ordered log of the calls the function makes to its collaborators.
What the function reads from outside in one call (the shared-memory segment,
the viewport context, the theme value, whether a texture creation succeeds) is
a `Frame`.

Pointers are natural numbers, `0` being `nullptr`.
-/

namespace Overlay

/-! ## Data model -/

/-- A C array of three elements, such as `SharedTexHandles[3]` and
`GlassLinkTexs[3]`. -/
structure Arr3 (α : Type) where
  e0 : α
  e1 : α
  e2 : α
deriving DecidableEq

/-- Read `a[i]`. The source only indexes with `0`, `1`, `2`; an index outside
the array reads as the default value (`nullptr` for pointers). -/
def Arr3.get {α : Type} [Inhabited α] (a : Arr3 α) (i : Nat) : α :=
  match i with
  | 0 => a.e0
  | 1 => a.e1
  | 2 => a.e2
  | _ => default

/-- Write `a[i] = v`; an index outside the array leaves it as it is. -/
def Arr3.set {α : Type} (a : Arr3 α) (i : Nat) (v : α) : Arr3 α :=
  match i with
  | 0 => { a with e0 := v }
  | 1 => { a with e1 := v }
  | 2 => { a with e2 := v }
  | _ => a

/-- The three elements in index order. -/
def Arr3.toList {α : Type} (a : Arr3 α) : List α := [a.e0, a.e1, a.e2]

/-- The record `struct CGlassLinkShared` (lines 24-30). The fields are laid out
without padding, so `memcmp` over the record is equality of the fields. -/
structure CGlassLinkShared where
  SharedTexHandles : Arr3 Nat
  SharedFenceHandle : Nat
  SharedTexSize : Nat
  Width : Int
  Height : Int
deriving DecidableEq

/-- The default member initialisers of `CGlassLinkShared`: all null, all zero. -/
def CGlassLinkShared.zero : CGlassLinkShared :=
  { SharedTexHandles := ⟨0, 0, 0⟩, SharedFenceHandle := 0, SharedTexSize := 0,
    Width := 0, Height := 0 }

/-- A C `float`, kept as its 32-bit pattern: the function copies floats and
writes the constants `0.0f` and `1.0f`, it never computes with them. -/
structure float32 where
  bits : Nat
deriving DecidableEq

/-- The constant `0.0f`. -/
def float32.zero : float32 := ⟨0⟩

/-- The constant `1.0f` (bit pattern `0x3F800000`). -/
def float32.one : float32 := ⟨0x3F800000⟩

/-- The vector type `float4`. -/
structure float4 where
  x : float32
  y : float32
  z : float32
  w : float32
deriving DecidableEq

/-- Modelled from the spec: the `BG_*` values of the shader interface are
declared outside this file; the spec calls the mode an enumeration. -/
inductive BackgroundType where
  | BG_SOLID
  | BG_GRADIENT
  | BG_CHECKER
  | BG_RADIAL
  | BG_SOLID_CHECKER
  | BG_MASK
  | BG_GLASSLINK
deriving DecidableEq

/-- Modelled from the spec: the editor space kind of the viewport context
(image editor, node editor, 3D viewport); `eSpace_Type` is declared outside
this file. -/
inductive eSpace_Type where
  | SPACE_VIEW3D
  | SPACE_IMAGE
  | SPACE_NODE
deriving DecidableEq

/-- The numeric constants the function names and that are declared in headers
outside this file. They are parameters of the embedding. -/
structure Decls where
  DRW_STATE_WRITE_COLOR : Nat
  DRW_STATE_BLEND_BACKGROUND : Nat
  DRW_STATE_BLEND_MUL : Nat
  DRW_STATE_BLEND_ALPHA : Nat
  DRW_STATE_CULL_BACK : Nat
  V3D_SHADING_BACKGROUND_WORLD : Int
  V3D_SHADING_BACKGROUND_VIEWPORT : Int
  OB_SOLID : Int
  TH_BACKGROUND_SINGLE_COLOR : Int
  TH_BACKGROUND_GRADIENT_LINEAR : Int
  TH_BACKGROUND_GRADIENT_RADIAL : Int

/-- The labels of one `switch` are pairwise different (the compiler refuses
the program otherwise). -/
def Decls.theme_labels_distinct (c : Decls) : Prop :=
  c.TH_BACKGROUND_SINGLE_COLOR ≠ c.TH_BACKGROUND_GRADIENT_LINEAR ∧
  c.TH_BACKGROUND_SINGLE_COLOR ≠ c.TH_BACKGROUND_GRADIENT_RADIAL ∧
  c.TH_BACKGROUND_GRADIENT_LINEAR ≠ c.TH_BACKGROUND_GRADIENT_RADIAL

/-- One assignment of the constants, used for concrete evaluation. -/
def Decls.sample : Decls :=
  { DRW_STATE_WRITE_COLOR := 2
    DRW_STATE_BLEND_BACKGROUND := 10240
    DRW_STATE_BLEND_MUL := 14336
    DRW_STATE_BLEND_ALPHA := 6144
    DRW_STATE_CULL_BACK := 1024
    V3D_SHADING_BACKGROUND_WORLD := 1
    V3D_SHADING_BACKGROUND_VIEWPORT := 2
    OB_SOLID := 3
    TH_BACKGROUND_SINGLE_COLOR := 0
    TH_BACKGROUND_GRADIENT_LINEAR := 1
    TH_BACKGROUND_GRADIENT_RADIAL := 2 }

/-- The part of `World` (DNA) the function reads: the horizon colour
`horr, horg, horb`. -/
structure WorldColor where
  horr : float32
  horg : float32
  horb : float32
deriving DecidableEq

/-- The part of `RegionView3D` the function reads: the pointer `clipbb`. -/
structure RegionView3D where
  clipbb : Nat
deriving DecidableEq

/-- Modelled from the spec: the viewport context `State` (declared outside
this file), with the fields the function reads. -/
structure State where
  is_viewport_image_render : Bool
  draw_background : Bool
  space_type : eSpace_Type
  /-- The field `v3d->shading.background_type`. -/
  shading_background_type : Int
  /-- The field `v3d->shading.type`. -/
  shading_type : Int
  /-- The field `v3d->shading.background_color`. -/
  shading_background_color : Arr3 float32
  /-- The pointer `scene->world`, `none` being `nullptr`. -/
  world : Option WorldColor
  clipping_plane_count : Int
  /-- The pointer `rv3d`, `none` being `nullptr`. -/
  rv3d : Option RegionView3D
deriving DecidableEq

/-- Method `State::is_space_image`. -/
def State.is_space_image (s : State) : Bool := s.space_type == eSpace_Type.SPACE_IMAGE

/-- Method `State::is_space_node`. -/
def State.is_space_node (s : State) : Bool := s.space_type == eSpace_Type.SPACE_NODE

/-- What one call of `begin_sync` reads from outside the object. -/
structure Frame where
  /-- Whether `SharedMem.Init`, if it is called in this frame, acquires the
  segment. -/
  initOk : Bool
  /-- The record found in the shared segment when it is read in this frame. -/
  shared : CGlassLinkShared
  /-- Whether the call of `GPU_texture_create_2d` for slot `i`, if it is made
  in this frame, returns a texture. -/
  createOk : Arr3 Bool
  /-- The viewport context `state`. -/
  state : State
  /-- The value of `UI_GetThemeValue(TH_BACKGROUND_TYPE)`. -/
  theme : Int
deriving DecidableEq

/-- The commands recorded into the pass `bg_ps_` (lines 154-182). -/
inductive PassCmd where
  | framebuffer_set
  | state_set (s : Nat)
  | shader_set_background_clip_bound
  | shader_set_background_fill
  | push_constant_ucolor
  | push_constant_boundbox (clipbb : Nat)
  | draw_cube_solid
  | bind_ubo_globals
  | bind_ubo_clip_planes
  | bind_texture_colorBuffer
  | bind_texture_depthBuffer
  | bind_texture_glassLink (slot : Nat) (tex : Nat)
  | push_constant_colorOverride (c : float4)
  | push_constant_bgType (t : BackgroundType)
  | draw_procedural
deriving DecidableEq

/-- The calls `begin_sync` makes to its collaborators, in program order. -/
inductive Event where
  /-- The call `SharedMem.Init(sizeof(GlassLinkShared))` and whether it acquired the segment. -/
  | shm_init (ok : Bool)
  /-- The call `SharedMem.Release()`. -/
  | shm_release
  /-- The call `GPU_texture_free(t)`. -/
  | texture_free (t : Nat)
  /-- The call `GPU_texture_create_2d` with width, height, external handle, size and
  fence, and the pointer it returned (`0` when it failed). -/
  | texture_create (width height : Int) (handle size fence : Nat) (result : Nat)
  /-- The call `WaitOnGlassLinkSemaphore()` on texture `t`. -/
  | wait_semaphore (t : Nat)
  /-- The call `bg_ps_.init()`. -/
  | pass_init
  /-- A command recorded into `bg_ps_`. -/
  | pass (cmd : PassCmd)
deriving DecidableEq

/-- The state `begin_sync` works on. -/
structure World where
  /-- Member `bg_ps_`: the commands recorded since the last `init()`. -/
  bg_ps_ : List PassCmd
  /-- Member `GlassLinkTexs`. -/
  GlassLinkTexs : Arr3 Nat
  /-- Member `GlassLinkShared`, the stored snapshot. -/
  GlassLinkShared : CGlassLinkShared
  /-- Modelled from the spec: member `SharedMem` (class `SharedMemory`, declared
  outside this file), reduced to whether a mapping exists; `get_size()` is `0`
  and `get_data()` is `nullptr` exactly when none exists. -/
  SharedMem : Bool
  /-- The function-local `static int iGlassLinkTex`. -/
  iGlassLinkTex : Nat
  /-- Modelled from the spec: the GPU layer, as the textures created and not
  yet freed. -/
  live : List Nat
  /-- Modelled from the spec: the GPU layer, the number of textures created so
  far; the textures are numbered `1, 2, ...` in creation order. -/
  created : Nat
  /-- The log of calls to collaborators, oldest first. -/
  trace : List Event
deriving DecidableEq

/-- The state at process start: member initialisers of lines 37-43 and the
initialiser of the static, no texture alive, nothing logged. -/
def World.init : World :=
  { bg_ps_ := []
    GlassLinkTexs := ⟨0, 0, 0⟩
    GlassLinkShared := CGlassLinkShared.zero
    SharedMem := false
    iGlassLinkTex := 0
    live := []
    created := 0
    trace := [] }

/-! ## Operations -/

/-- Append one call to the log. -/
def emit (e : Event) (w : World) : World :=
  { w with trace := w.trace ++ [e] }

/-- Record one command into `bg_ps_`. -/
def record (cmd : PassCmd) (w : World) : World :=
  emit (Event.pass cmd) { w with bg_ps_ := w.bg_ps_ ++ [cmd] }

/-- The call `bg_ps_.init()` (line 153): the pass starts empty. -/
def bg_ps_init (w : World) : World :=
  emit Event.pass_init { w with bg_ps_ := [] }

/-- Modelled from the spec: `GPU_texture_free` (GPU layer, declared outside this
file) destroys the texture: it is no longer alive. -/
def GPU_texture_free (t : Nat) (w : World) : World :=
  emit (Event.texture_free t) { w with live := w.live.erase t }

/-- Modelled from the spec: the pointer `GPU_texture_create_2d` (GPU layer,
declared outside this file) returns: a texture that did not exist before, or
`nullptr` when the layer cannot import the handle. -/
def GPU_texture_create_2d_result (ok : Bool) (w : World) : Nat :=
  if ok then w.created + 1 else 0

/-- Modelled from the spec: the effect of `GPU_texture_create_2d` on the GPU
layer: on success the new texture is alive. -/
def GPU_texture_create_2d (width height : Int) (handle size fence : Nat) (ok : Bool)
    (w : World) : World :=
  emit (Event.texture_create width height handle size fence (GPU_texture_create_2d_result ok w))
    (if ok then { w with live := (w.created + 1) :: w.live, created := w.created + 1 } else w)

/-- Modelled from the spec: `SharedMemory::Init` (class declared outside this
file) tries to acquire the shared segment; a mapping exists afterwards exactly
when that succeeded (`ok`). -/
def SharedMemory_Init (ok : Bool) (w : World) : World :=
  emit (Event.shm_init ok) { w with SharedMem := ok }

/-- Modelled from the spec: `SharedMemory::Release` (class declared outside this
file) gives the mapping up: none exists afterwards. -/
def SharedMemory_Release (w : World) : World :=
  emit Event.shm_release { w with SharedMem := false }

/-- Modelled from the spec: `SharedMemory::get_data` (class declared outside this
file), together with the read through the pointer: the record in the segment
when a mapping exists, `none` for `nullptr` when there is none. -/
def get_data (f : Frame) (w : World) : Option CGlassLinkShared :=
  if w.SharedMem then some f.shared else none

/-- Lines 50-51: `if (SharedMem.get_size() == 0) SharedMem.Init(...)`; the size
is `0` when there is no mapping. -/
def shared_mem_init (f : Frame) (w : World) : World :=
  if w.SharedMem = false then SharedMemory_Init f.initOk w else w

/-- Lines 70-73 and 95-98: `if (GlassLinkTexs[i]) { GPU_texture_free(...);
GlassLinkTexs[i] = nullptr; }`. -/
def free_slot (i : Nat) (w : World) : World :=
  if w.GlassLinkTexs.get i ≠ 0 then
    let w1 := GPU_texture_free (w.GlassLinkTexs.get i) w
    { w1 with GlassLinkTexs := w1.GlassLinkTexs.set i 0 }
  else w

/-- Lines 75-84: `GlassLinkTexs[i] = GPU_texture_create_2d(...)` with the
dimensions, handle, size and fence of the stored snapshot. -/
def create_slot (f : Frame) (i : Nat) (w : World) : World :=
  let t := GPU_texture_create_2d_result (f.createOk.get i) w
  let w1 := GPU_texture_create_2d w.GlassLinkShared.Width w.GlassLinkShared.Height
    (w.GlassLinkShared.SharedTexHandles.get i) w.GlassLinkShared.SharedTexSize
    w.GlassLinkShared.SharedFenceHandle (f.createOk.get i) w
  { w1 with GlassLinkTexs := w1.GlassLinkTexs.set i t }

/-- Lines 70-84: the body of the import loop for slot `i`. -/
def import_slot (f : Frame) (i : Nat) (w : World) : World :=
  create_slot f i (free_slot i w)

/-- A loop `for (int i = 0; i < 3; i++) body(i)`. -/
def for3 (body : Nat → World → World) (w : World) : World :=
  (List.range 3).foldl (fun acc i => body i acc) w

/-- Lines 58-102: what is done with a record read from the mapping. -/
def apply_shared (f : Frame) (newGlassLinkShared : CGlassLinkShared) (w : World) : World :=
  if w.GlassLinkShared ≠ newGlassLinkShared then
    let w1 := { w with GlassLinkShared := newGlassLinkShared }
    if w1.GlassLinkShared.SharedTexHandles.get 0 ≠ 0 ∧ w1.GlassLinkShared.SharedTexSize ≠ 0 then
      for3 (import_slot f) w1
    else
      SharedMemory_Release (for3 free_slot w1)
  else w

/-- Lines 49-104: the GlassLink block of `begin_sync`. -/
def poll (f : Frame) (w : World) : World :=
  let w1 := shared_mem_init f w
  match get_data f w1 with
  | some newGlassLinkShared => apply_shared f newGlassLinkShared w1
  | none => w1

/-- The three locals `pass_state`, `color_override`, `background_type` after
lines 106-151. -/
structure Decision where
  pass_state : Nat
  color_override : float4
  background_type : BackgroundType
deriving DecidableEq

/-- Lines 106-151: the choice of the background type. `texs` is the member
`GlassLinkTexs` at that point. -/
def resolve (c : Decls) (state : State) (theme : Int) (texs : Arr3 Nat) : Decision :=
  let pass_state := c.DRW_STATE_WRITE_COLOR ||| c.DRW_STATE_BLEND_BACKGROUND
  let color_override : float4 := ⟨float32.zero, float32.zero, float32.zero, float32.zero⟩
  if state.is_viewport_image_render && !state.draw_background then
    ⟨pass_state, { color_override with w := float32.one }, BackgroundType.BG_SOLID⟩
  else if state.is_space_image then
    ⟨pass_state, color_override, BackgroundType.BG_SOLID_CHECKER⟩
  else if state.is_space_node then
    ⟨c.DRW_STATE_WRITE_COLOR ||| c.DRW_STATE_BLEND_MUL, color_override, BackgroundType.BG_MASK⟩
  else if !state.draw_background then
    ⟨pass_state, color_override, BackgroundType.BG_CHECKER⟩
  else if h : state.shading_background_type = c.V3D_SHADING_BACKGROUND_WORLD ∧
      state.world.isSome = true then
    let world := state.world.get h.2
    ⟨pass_state, ⟨world.horr, world.horg, world.horb, float32.one⟩, BackgroundType.BG_SOLID⟩
  else if state.shading_background_type = c.V3D_SHADING_BACKGROUND_VIEWPORT ∧
      state.shading_type ≤ c.OB_SOLID then
    ⟨pass_state,
      ⟨state.shading_background_color.e0, state.shading_background_color.e1,
        state.shading_background_color.e2, float32.one⟩,
      BackgroundType.BG_SOLID⟩
  else if theme = c.TH_BACKGROUND_GRADIENT_LINEAR then
    ⟨pass_state, color_override, BackgroundType.BG_GRADIENT⟩
  else if theme = c.TH_BACKGROUND_GRADIENT_RADIAL then
    ⟨pass_state, color_override, BackgroundType.BG_RADIAL⟩
  else
    ⟨pass_state, color_override,
      if texs.get 0 ≠ 0 then BackgroundType.BG_GLASSLINK else BackgroundType.BG_SOLID⟩

/-- Lines 157-158: the wait on the semaphore of the selected texture. -/
def wait_selected (w : World) : World :=
  if w.GlassLinkTexs.get w.iGlassLinkTex ≠ 0 then
    emit (Event.wait_semaphore (w.GlassLinkTexs.get w.iGlassLinkTex)) w
  else w

/-- Lines 160-168: the clip bound draw. -/
def clip_bound (c : Decls) (state : State) (w : World) : World :=
  match state.rv3d with
  | some rv3d =>
    if state.clipping_plane_count ≠ 0 ∧ rv3d.clipbb ≠ 0 then
      let w := record (PassCmd.state_set
        (c.DRW_STATE_WRITE_COLOR ||| c.DRW_STATE_BLEND_ALPHA ||| c.DRW_STATE_CULL_BACK)) w
      let w := record PassCmd.shader_set_background_clip_bound w
      let w := record PassCmd.push_constant_ucolor w
      let w := record (PassCmd.push_constant_boundbox rv3d.clipbb) w
      record PassCmd.draw_cube_solid w
    else w
  | none => w

/-- Lines 177-178: the bind of the selected texture. -/
def bind_selected (w : World) : World :=
  if w.GlassLinkTexs.get w.iGlassLinkTex ≠ 0 then
    record (PassCmd.bind_texture_glassLink w.iGlassLinkTex
      (w.GlassLinkTexs.get w.iGlassLinkTex)) w
  else w

/-- Lines 170-182: the fill draw. -/
def fill (d : Decision) (w : World) : World :=
  let w := record (PassCmd.state_set d.pass_state) w
  let w := record PassCmd.shader_set_background_fill w
  let w := record PassCmd.bind_ubo_globals w
  let w := record PassCmd.bind_ubo_clip_planes w
  let w := record PassCmd.bind_texture_colorBuffer w
  let w := record PassCmd.bind_texture_depthBuffer w
  let w := bind_selected w
  let w := record (PassCmd.push_constant_colorOverride d.color_override) w
  let w := record (PassCmd.push_constant_bgType d.background_type) w
  record PassCmd.draw_procedural w

/-- The method `Background::begin_sync` (lines 46-186). -/
def begin_sync (c : Decls) (f : Frame) (w : World) : World :=
  let w := poll f w
  let d := resolve c f.state f.theme w.GlassLinkTexs
  let w := bg_ps_init w
  let w := record PassCmd.framebuffer_set w
  let w := wait_selected w
  let w := clip_bound c f.state w
  let w := fill d w
  { w with iGlassLinkTex := (w.iGlassLinkTex + 1) % 3 }

/-- The state after the calls `begin_sync` for the frames `fs`, first frame
first. -/
def run (c : Decls) (fs : List Frame) (w : World) : World :=
  fs.foldl (fun acc f => begin_sync c f acc) w

/-! ## Observations on a recorded pass -/

/-- The values pushed as the constant `bgType`, in order. -/
def pushed_bgType (ps : List PassCmd) : List BackgroundType :=
  ps.filterMap fun cmd =>
    match cmd with
    | PassCmd.push_constant_bgType t => some t
    | _ => none

/-- The values pushed as the constant `colorOverride`, in order. -/
def pushed_colorOverride (ps : List PassCmd) : List float4 :=
  ps.filterMap fun cmd =>
    match cmd with
    | PassCmd.push_constant_colorOverride v => some v
    | _ => none

/-- The pass state in effect at each `draw_procedural` of a pass: the argument
of the latest `state_set` before it (`cur` is the state in effect at the start). -/
def fill_draw_states : List PassCmd → Option Nat → List (Option Nat)
  | [], _ => []
  | PassCmd.state_set s :: rest, _ => fill_draw_states rest (some s)
  | PassCmd.draw_procedural :: rest, cur => cur :: fill_draw_states rest cur
  | _ :: rest, cur => fill_draw_states rest cur

/-! ## The decision rule in the words of the spec -/

/-- The first entry of an ordered rule table whose condition holds. -/
def first_match {α : Type} : List (Bool × α) → Option α
  | [] => none
  | (cond, out) :: rest => if cond then some out else first_match rest

/-- The spec's rule table of section 4.4: conditions in the order 1 to 7, each
with the modes the spec allows as outcome. -/
def spec_rules (c : Decls) (state : State) (theme : Int) :
    List (Bool × List BackgroundType) :=
  [ (state.is_viewport_image_render && !state.draw_background, [BackgroundType.BG_SOLID]),
    (state.space_type == eSpace_Type.SPACE_IMAGE, [BackgroundType.BG_SOLID_CHECKER]),
    (state.space_type == eSpace_Type.SPACE_NODE, [BackgroundType.BG_MASK]),
    (!state.draw_background, [BackgroundType.BG_CHECKER]),
    (decide (state.shading_background_type = c.V3D_SHADING_BACKGROUND_WORLD) &&
      state.world.isSome, [BackgroundType.BG_SOLID]),
    (decide (state.shading_background_type = c.V3D_SHADING_BACKGROUND_VIEWPORT) &&
      decide (state.shading_type ≤ c.OB_SOLID), [BackgroundType.BG_SOLID]),
    (decide (theme = c.TH_BACKGROUND_GRADIENT_LINEAR), [BackgroundType.BG_GRADIENT]),
    (decide (theme = c.TH_BACKGROUND_GRADIENT_RADIAL), [BackgroundType.BG_RADIAL]),
    (decide (theme = c.TH_BACKGROUND_SINGLE_COLOR),
      [BackgroundType.BG_GLASSLINK, BackgroundType.BG_SOLID]) ]

/-- A context reaches rule 7: none of the rules 1 to 6 matches. -/
def reaches_rule7 (c : Decls) (state : State) : Prop :=
  ¬ (state.is_viewport_image_render = true ∧ state.draw_background = false) ∧
  state.space_type ≠ eSpace_Type.SPACE_IMAGE ∧
  state.space_type ≠ eSpace_Type.SPACE_NODE ∧
  state.draw_background = true ∧
  ¬ (state.shading_background_type = c.V3D_SHADING_BACKGROUND_WORLD ∧ state.world.isSome = true) ∧
  ¬ (state.shading_background_type = c.V3D_SHADING_BACKGROUND_VIEWPORT ∧
      state.shading_type ≤ c.OB_SOLID)

/-! ## Concrete inputs -/

/-- A 3D viewport context that reaches rule 7. -/
def ex_state : State :=
  { is_viewport_image_render := false
    draw_background := true
    space_type := eSpace_Type.SPACE_VIEW3D
    shading_background_type := 0
    shading_type := 3
    shading_background_color := ⟨⟨0⟩, ⟨0⟩, ⟨0⟩⟩
    world := none
    clipping_plane_count := 0
    rv3d := none }

/-- A published record with three handles. -/
def ex_shared : CGlassLinkShared :=
  { SharedTexHandles := ⟨11, 12, 13⟩, SharedFenceHandle := 7, SharedTexSize := 64,
    Width := 4, Height := 4 }

/-- A frame with the single-colour theme in which all three imports succeed. -/
def ex_frame : Frame :=
  { initOk := true, shared := ex_shared, createOk := ⟨true, true, true⟩, state := ex_state,
    theme := 0 }

/-- The same frame, with the import of slot 0 failing. -/
def ex_frame_fail0 : Frame := { ex_frame with createOk := ⟨false, true, true⟩ }

/-- The same frame, with the import of slot 1 failing. -/
def ex_frame_fail1 : Frame := { ex_frame with createOk := ⟨true, false, true⟩ }

/-- A node editor context that is an image render without background. -/
def ex_state_node_render : State :=
  { ex_state with
    is_viewport_image_render := true
    draw_background := false
    space_type := eSpace_Type.SPACE_NODE }

/-- A node editor context. -/
def ex_state_node : State := { ex_state with space_type := eSpace_Type.SPACE_NODE }

/-- An image render without background. -/
def ex_state_render : State :=
  { ex_state with is_viewport_image_render := true, draw_background := false }

/-! ## Closed forms of the recorded commands -/

/-- The commands of the clip bound draw. -/
def clip_cmds (c : Decls) (state : State) : List PassCmd :=
  match state.rv3d with
  | some rv3d =>
    if state.clipping_plane_count ≠ 0 ∧ rv3d.clipbb ≠ 0 then
      [PassCmd.state_set
          (c.DRW_STATE_WRITE_COLOR ||| c.DRW_STATE_BLEND_ALPHA ||| c.DRW_STATE_CULL_BACK),
        PassCmd.shader_set_background_clip_bound, PassCmd.push_constant_ucolor,
        PassCmd.push_constant_boundbox rv3d.clipbb, PassCmd.draw_cube_solid]
    else []
  | none => []

/-- The bind of the texture in slot `i`, when there is one. -/
def bind_cmds (texs : Arr3 Nat) (i : Nat) : List PassCmd :=
  if texs.get i ≠ 0 then [PassCmd.bind_texture_glassLink i (texs.get i)] else []

/-! ## Observations on the log of calls -/

/-- The call that frees texture `t`, when `t` is not `nullptr`. -/
def free_events (t : Nat) : List Event :=
  if t ≠ 0 then [Event.texture_free t] else []

/-- The call of `SharedMem.Init` made by a call of `begin_sync` from `w`, if any. -/
def init_events (f : Frame) (w : World) : List Event :=
  if w.SharedMem = false then [Event.shm_init f.initOk] else []

/-- The calls to the GPU texture layer among `ev` (creations and frees), in
order. -/
def texture_calls (ev : List Event) : List Event :=
  ev.filter fun e =>
    match e with
    | Event.texture_free _ => true
    | Event.texture_create _ _ _ _ _ _ => true
    | _ => false

/-- The textures freed by the calls `ev`, in order. -/
def freed (ev : List Event) : List Nat :=
  ev.filterMap fun e =>
    match e with
    | Event.texture_free t => some t
    | _ => none

/-- The textures created by the calls `ev`, in order: the results of the
creation calls that did not fail. -/
def made (ev : List Event) : List Nat :=
  ev.filterMap fun e =>
    match e with
    | Event.texture_create _ _ _ _ _ r => if r ≠ 0 then some r else none
    | _ => none

/-- The calls made by one call of `begin_sync` from state `w`. -/
def frame_events (c : Decls) (f : Frame) (w : World) : List Event :=
  (begin_sync c f w).trace.drop w.trace.length

/-- The record one call of `begin_sync` from state `w` reads from the mapping,
`none` when it has no mapping. -/
def read_record (f : Frame) (w : World) : Option CGlassLinkShared :=
  get_data f (shared_mem_init f w)

/-- The non-empty entries of `GlassLinkTexs`, in slot order. -/
def held (w : World) : List Nat :=
  w.GlassLinkTexs.toList.filter fun t => t ≠ 0

/-- The calls after the GlassLink block: pass set-up, wait, and the recorded
commands. -/
def draw_events (c : Decls) (f : Frame) (w : World) : List Event :=
  Event.pass_init :: Event.pass PassCmd.framebuffer_set ::
    ((if w.GlassLinkTexs.get w.iGlassLinkTex ≠ 0 then
        [Event.wait_semaphore (w.GlassLinkTexs.get w.iGlassLinkTex)] else []) ++
      ((clip_cmds c f.state ++
        [PassCmd.state_set (resolve c f.state f.theme w.GlassLinkTexs).pass_state,
          PassCmd.shader_set_background_fill, PassCmd.bind_ubo_globals,
          PassCmd.bind_ubo_clip_planes, PassCmd.bind_texture_colorBuffer,
          PassCmd.bind_texture_depthBuffer] ++
        bind_cmds w.GlassLinkTexs w.iGlassLinkTex ++
        [PassCmd.push_constant_colorOverride
            (resolve c f.state f.theme w.GlassLinkTexs).color_override,
          PassCmd.push_constant_bgType (resolve c f.state f.theme w.GlassLinkTexs).background_type,
          PassCmd.draw_procedural]).map Event.pass))

/-- The texture calls of an import over the three slots, in order: for each
slot the free of the texture held before (if any), then the creation with the
dimensions, handle, size and fence of the record `D`; `old` are the slots
before and `new` the slots after. -/
def import_calls (D : CGlassLinkShared) (old new : Arr3 Nat) : List Event :=
  free_events (old.get 0) ++
  [Event.texture_create D.Width D.Height (D.SharedTexHandles.get 0) D.SharedTexSize
    D.SharedFenceHandle (new.get 0)] ++
  free_events (old.get 1) ++
  [Event.texture_create D.Width D.Height (D.SharedTexHandles.get 1) D.SharedTexSize
    D.SharedFenceHandle (new.get 1)] ++
  free_events (old.get 2) ++
  [Event.texture_create D.Width D.Height (D.SharedTexHandles.get 2) D.SharedTexSize
    D.SharedFenceHandle (new.get 2)]

/-- A frame carried out an import or a teardown, as seen in its calls: it
called `GPU_texture_create_2d` or `SharedMem.Release`. -/
def acted (ev : List Event) : Bool :=
  ev.any fun e =>
    match e with
    | Event.texture_create _ _ _ _ _ _ => true
    | Event.shm_release => true
    | _ => false

/-- The record of the last frame among `fs` (run from state `w`) that carried
out an import or a teardown; `d` when there is none. -/
def last_acted (c : Decls) : List Frame → World → CGlassLinkShared → CGlassLinkShared
  | [], _, d => d
  | f :: fs, w, d =>
    last_acted c fs (begin_sync c f w) (if acted (frame_events c f w) then f.shared else d)

/-- The ownership invariant between the GPU layer, the log of calls and the
slots of `GlassLinkTexs`. -/
structure Owned (w : World) : Prop where
  /-- The textures created so far are `1, ..., created`. -/
  made_iff : ∀ t, t ∈ made w.trace ↔ 0 < t ∧ t ≤ w.created
  /-- No texture was returned by two creation calls. -/
  made_nodup : (made w.trace).Nodup
  /-- Only created textures were freed. -/
  freed_made : ∀ t, t ∈ freed w.trace → 0 < t ∧ t ≤ w.created
  /-- No texture was freed twice. -/
  freed_nodup : (freed w.trace).Nodup
  /-- The live textures are the created ones that were not freed. -/
  live_iff : ∀ t, t ∈ w.live ↔ (0 < t ∧ t ≤ w.created ∧ t ∉ freed w.trace)
  /-- The GPU layer holds each live texture once. -/
  live_nodup : w.live.Nodup
  /-- The live textures are the non-empty entries of the slots. -/
  slot_live : ∀ t, t ∈ w.live ↔ (t ≠ 0 ∧ ∃ i, i < 3 ∧ w.GlassLinkTexs.get i = t)
  /-- No texture is held in two slots. -/
  slot_inj : ∀ i j, i < 3 → j < 3 → w.GlassLinkTexs.get i ≠ 0 →
    w.GlassLinkTexs.get i = w.GlassLinkTexs.get j → i = j

/-- The record of `ex_shared` republished with another width. -/
def ex_frame_wide : Frame := { ex_frame with shared := { ex_shared with Width := 5 } }

/-- A frame in which the producer has zeroed the record. -/
def ex_frame_teardown : Frame := { ex_frame with shared := CGlassLinkShared.zero }

/-! ## Further observations (claims C11 to C19) -/

/-- Every frame of `fs`, run from state `w`, gets no data from the mapping. -/
def link_unavailable (c : Decls) : List Frame → World → Bool
  | [], _ => true
  | f :: fs, w => (read_record f w).isNone && link_unavailable c fs (begin_sync c f w)

/-- The waits on a link semaphore and the binds of a texture as glassLink among
the calls `ev`, in order. -/
def fence_calls (ev : List Event) : List Event :=
  ev.filter fun e =>
    match e with
    | Event.wait_semaphore _ => true
    | Event.pass (PassCmd.bind_texture_glassLink _ _) => true
    | _ => false

/-- The number (1 to 7) of the first rule of the spec's table that matches the
context; rule 7 is the theme rule. -/
def deciding_rule (c : Decls) (state : State) : Nat :=
  (first_match
    [ (state.is_viewport_image_render && !state.draw_background, 1),
      (state.space_type == eSpace_Type.SPACE_IMAGE, 2),
      (state.space_type == eSpace_Type.SPACE_NODE, 3),
      (!state.draw_background, 4),
      (decide (state.shading_background_type = c.V3D_SHADING_BACKGROUND_WORLD) &&
        state.world.isSome, 5),
      (decide (state.shading_background_type = c.V3D_SHADING_BACKGROUND_VIEWPORT) &&
        decide (state.shading_type ≤ c.OB_SOLID), 6) ]).getD 7

/-- The colour override the spec gives for the deciding rule: opaque black for
rule 1, the world horizon colour with alpha one for rule 5, the viewport
background colour with alpha one for rule 6, none (all zero) otherwise. -/
def spec_color_override (c : Decls) (state : State) : float4 :=
  match deciding_rule c state with
  | 1 => ⟨float32.zero, float32.zero, float32.zero, float32.one⟩
  | 5 =>
    match state.world with
    | some world => ⟨world.horr, world.horg, world.horb, float32.one⟩
    | none => ⟨float32.zero, float32.zero, float32.zero, float32.zero⟩
  | 6 =>
    ⟨state.shading_background_color.e0, state.shading_background_color.e1,
      state.shading_background_color.e2, float32.one⟩
  | _ => ⟨float32.zero, float32.zero, float32.zero, float32.zero⟩

/-- The condition of line 160: clipping planes are set and a region view with
a clip bounding box is present. -/
def clip_active (state : State) : Bool :=
  match state.rv3d with
  | some rv3d => decide (state.clipping_plane_count ≠ 0) && decide (rv3d.clipbb ≠ 0)
  | none => false

/-- The test of line 61 on a record: first handle non-null and size non-zero. -/
def valid_record (D : CGlassLinkShared) : Bool :=
  decide (D.SharedTexHandles.get 0 ≠ 0) && decide (D.SharedTexSize ≠ 0)

/-- No creation call among `ev` failed (returned `nullptr`). -/
def all_created (ev : List Event) : Bool :=
  ev.all fun e =>
    match e with
    | Event.texture_create _ _ _ _ _ r => decide (r ≠ 0)
    | _ => true

/-- The three slots are all empty or all non-empty. -/
def all_or_none (texs : Arr3 Nat) : Prop :=
  (texs.get 0 = 0 ∧ texs.get 1 = 0 ∧ texs.get 2 = 0) ∨
  (texs.get 0 ≠ 0 ∧ texs.get 1 ≠ 0 ∧ texs.get 2 ≠ 0)

/-- The slots mirror the snapshot: with a valid snapshot the latest texture
calls of the log are the import calls made for the snapshot and the slots hold
their results; otherwise the slots are empty. -/
def mirrors (w : World) : Prop :=
  (valid_record w.GlassLinkShared = true →
    ∃ pre old post, w.trace = pre ++ import_calls w.GlassLinkShared old w.GlassLinkTexs ++ post ∧
      texture_calls post = []) ∧
  (valid_record w.GlassLinkShared = false → w.GlassLinkTexs = ⟨0, 0, 0⟩)

/-- A frame in which the segment cannot be acquired. -/
def ex_frame_unavailable : Frame := { ex_frame with initOk := false }

/-- A frame with a theme value outside the three named styles. -/
def ex_frame_theme7 : Frame := { ex_frame with theme := 7 }

/-- A frame whose context has clipping planes and a clip bounding box. -/
def ex_frame_clip : Frame :=
  { ex_frame with state := { ex_state with clipping_plane_count := 2, rv3d := some ⟨99⟩ } }

/-! ## Lemmas on the recorded pass and on `resolve` -/

theorem begin_sync_bg_ps (c : Decls) (f : Frame) (w : World) :
    (begin_sync c f w).bg_ps_ =
      PassCmd.framebuffer_set :: (clip_cmds c f.state ++
        [PassCmd.state_set (resolve c f.state f.theme (poll f w).GlassLinkTexs).pass_state,
          PassCmd.shader_set_background_fill, PassCmd.bind_ubo_globals,
          PassCmd.bind_ubo_clip_planes, PassCmd.bind_texture_colorBuffer,
          PassCmd.bind_texture_depthBuffer] ++
        bind_cmds (poll f w).GlassLinkTexs (poll f w).iGlassLinkTex ++
        [PassCmd.push_constant_colorOverride
            (resolve c f.state f.theme (poll f w).GlassLinkTexs).color_override,
          PassCmd.push_constant_bgType
            (resolve c f.state f.theme (poll f w).GlassLinkTexs).background_type,
          PassCmd.draw_procedural]) := by
  simp only [begin_sync, fill, bind_selected, clip_bound, wait_selected, record, emit, bg_ps_init,
    clip_cmds, bind_cmds]
  cases f.state.rv3d <;> simp <;> split_ifs <;> simp

theorem pushed_bgType_begin_sync (c : Decls) (f : Frame) (w : World) :
    pushed_bgType (begin_sync c f w).bg_ps_ =
      [(resolve c f.state f.theme (poll f w).GlassLinkTexs).background_type] := by
  rw [begin_sync_bg_ps]
  unfold clip_cmds bind_cmds
  cases f.state.rv3d with
  | none =>
    simp only [List.nil_append]
    split_ifs <;> simp [pushed_bgType]
  | some rv3d =>
    simp only
    split_ifs <;> simp [pushed_bgType]

theorem pushed_colorOverride_begin_sync (c : Decls) (f : Frame) (w : World) :
    pushed_colorOverride (begin_sync c f w).bg_ps_ =
      [(resolve c f.state f.theme (poll f w).GlassLinkTexs).color_override] := by
  rw [begin_sync_bg_ps]
  unfold clip_cmds bind_cmds
  cases f.state.rv3d with
  | none =>
    simp only [List.nil_append]
    split_ifs <;> simp [pushed_colorOverride]
  | some rv3d =>
    simp only
    split_ifs <;> simp [pushed_colorOverride]

theorem fill_draw_states_begin_sync (c : Decls) (f : Frame) (w : World) :
    fill_draw_states (begin_sync c f w).bg_ps_ none =
      [some (resolve c f.state f.theme (poll f w).GlassLinkTexs).pass_state] := by
  rw [begin_sync_bg_ps]
  unfold clip_cmds bind_cmds
  cases f.state.rv3d <;> simp [fill_draw_states] <;> split_ifs <;> simp [fill_draw_states]

theorem resolve_background_type (c : Decls) (state : State) (theme : Int) (texs : Arr3 Nat) :
    (resolve c state theme texs).background_type =
      if (state.is_viewport_image_render && !state.draw_background) = true then
        BackgroundType.BG_SOLID
      else if state.space_type = eSpace_Type.SPACE_IMAGE then BackgroundType.BG_SOLID_CHECKER
      else if state.space_type = eSpace_Type.SPACE_NODE then BackgroundType.BG_MASK
      else if state.draw_background = false then BackgroundType.BG_CHECKER
      else if state.shading_background_type = c.V3D_SHADING_BACKGROUND_WORLD ∧
          state.world.isSome = true then BackgroundType.BG_SOLID
      else if state.shading_background_type = c.V3D_SHADING_BACKGROUND_VIEWPORT ∧
          state.shading_type ≤ c.OB_SOLID then BackgroundType.BG_SOLID
      else if theme = c.TH_BACKGROUND_GRADIENT_LINEAR then BackgroundType.BG_GRADIENT
      else if theme = c.TH_BACKGROUND_GRADIENT_RADIAL then BackgroundType.BG_RADIAL
      else if texs.get 0 ≠ 0 then BackgroundType.BG_GLASSLINK
      else BackgroundType.BG_SOLID := by
  unfold resolve
  simp only [apply_ite Decision.background_type, apply_dite Decision.background_type,
    State.is_space_image, State.is_space_node, beq_iff_eq, Bool.not_eq_true_eq_eq_false,
    dite_eq_ite]

theorem resolve_pass_state (c : Decls) (state : State) (theme : Int) (texs : Arr3 Nat) :
    (resolve c state theme texs).pass_state =
      if (state.is_viewport_image_render && !state.draw_background) = true then
        c.DRW_STATE_WRITE_COLOR ||| c.DRW_STATE_BLEND_BACKGROUND
      else if state.space_type = eSpace_Type.SPACE_IMAGE then
        c.DRW_STATE_WRITE_COLOR ||| c.DRW_STATE_BLEND_BACKGROUND
      else if state.space_type = eSpace_Type.SPACE_NODE then
        c.DRW_STATE_WRITE_COLOR ||| c.DRW_STATE_BLEND_MUL
      else c.DRW_STATE_WRITE_COLOR ||| c.DRW_STATE_BLEND_BACKGROUND := by
  unfold resolve
  simp only [apply_ite Decision.pass_state, apply_dite Decision.pass_state,
    State.is_space_image, State.is_space_node, beq_iff_eq, Bool.not_eq_true_eq_eq_false,
    dite_eq_ite, ite_self]

theorem resolve_color_override (c : Decls) (state : State) (theme : Int) (texs : Arr3 Nat) :
    (resolve c state theme texs).color_override =
      if (state.is_viewport_image_render && !state.draw_background) = true then
        ⟨float32.zero, float32.zero, float32.zero, float32.one⟩
      else if state.space_type = eSpace_Type.SPACE_IMAGE then
        ⟨float32.zero, float32.zero, float32.zero, float32.zero⟩
      else if state.space_type = eSpace_Type.SPACE_NODE then
        ⟨float32.zero, float32.zero, float32.zero, float32.zero⟩
      else if state.draw_background = false then
        ⟨float32.zero, float32.zero, float32.zero, float32.zero⟩
      else if h : state.shading_background_type = c.V3D_SHADING_BACKGROUND_WORLD ∧
          state.world.isSome = true then
        ⟨(state.world.get h.2).horr, (state.world.get h.2).horg, (state.world.get h.2).horb,
          float32.one⟩
      else if state.shading_background_type = c.V3D_SHADING_BACKGROUND_VIEWPORT ∧
          state.shading_type ≤ c.OB_SOLID then
        ⟨state.shading_background_color.e0, state.shading_background_color.e1,
          state.shading_background_color.e2, float32.one⟩
      else ⟨float32.zero, float32.zero, float32.zero, float32.zero⟩ := by
  unfold resolve
  simp only [apply_ite Decision.color_override, apply_dite Decision.color_override,
    State.is_space_image, State.is_space_node, beq_iff_eq, Bool.not_eq_true_eq_eq_false,
    dite_eq_ite, ite_self]

/-! ## Lemmas on arrays of three -/

theorem Arr3.get_set_self {α : Type} [Inhabited α] (a : Arr3 α) (i : Nat) :
    a.set i (a.get i) = a := by
  rcases i with _ | _ | _ | i <;> rfl

theorem Arr3.get_set_same {α : Type} [Inhabited α] (a : Arr3 α) (i : Nat) (v : α) (hi : i < 3) :
    (a.set i v).get i = v := by
  rcases i with _ | _ | _ | i
  · rfl
  · rfl
  · rfl
  · omega

theorem Arr3.get_set_ne {α : Type} [Inhabited α] (a : Arr3 α) (i j : Nat) (v : α) (h : i ≠ j) :
    (a.set i v).get j = a.get j := by
  rcases i with _ | _ | _ | i <;> rcases j with _ | _ | _ | j <;> first | rfl | omega

theorem Arr3.set_set {α : Type} (a : Arr3 α) (i : Nat) (u v : α) :
    (a.set i u).set i v = a.set i v := by
  rcases i with _ | _ | _ | i <;> rfl

theorem Arr3.ext_get {α : Type} [Inhabited α] (a b : Arr3 α)
    (h : ∀ i, i < 3 → a.get i = b.get i) : a = b := by
  have h0 := h 0 (by omega)
  have h1 := h 1 (by omega)
  have h2 := h 2 (by omega)
  cases a; cases b
  simp only [Arr3.get] at h0 h1 h2
  simp [h0, h1, h2]

/-! ## Lemmas on the steps of the GlassLink block -/

theorem for3_eq (body : Nat → World → World) (w : World) :
    for3 body w = body 2 (body 1 (body 0 w)) := rfl

theorem free_slot_eq (i : Nat) (w : World) :
    free_slot i w =
      { w with
        GlassLinkTexs := w.GlassLinkTexs.set i 0
        live := if w.GlassLinkTexs.get i ≠ 0 then w.live.erase (w.GlassLinkTexs.get i) else w.live
        trace := w.trace ++ free_events (w.GlassLinkTexs.get i) } := by
  unfold free_slot free_events
  split_ifs with h
  · simp [GPU_texture_free, emit]
  · have h0 : w.GlassLinkTexs.get i = 0 := by simpa using h
    have hs : w.GlassLinkTexs.set i 0 = w.GlassLinkTexs := by
      conv_lhs => rw [← h0]
      exact Arr3.get_set_self _ _
    rw [hs]
    simp

theorem create_slot_eq (f : Frame) (i : Nat) (w : World) :
    create_slot f i w =
      { w with
        GlassLinkTexs := w.GlassLinkTexs.set i (if f.createOk.get i then w.created + 1 else 0)
        live := if f.createOk.get i then (w.created + 1) :: w.live else w.live
        created := if f.createOk.get i then w.created + 1 else w.created
        trace := w.trace ++ [Event.texture_create w.GlassLinkShared.Width
          w.GlassLinkShared.Height (w.GlassLinkShared.SharedTexHandles.get i)
          w.GlassLinkShared.SharedTexSize w.GlassLinkShared.SharedFenceHandle
          (if f.createOk.get i then w.created + 1 else 0)] } := by
  unfold create_slot GPU_texture_create_2d GPU_texture_create_2d_result emit
  split_ifs <;> rfl

/-! ## The ownership invariant is kept by every step -/

theorem made_append (a b : List Event) : made (a ++ b) = made a ++ made b := by
  simp [made, List.filterMap_append]

theorem freed_append (a b : List Event) : freed (a ++ b) = freed a ++ freed b := by
  simp [freed, List.filterMap_append]

theorem texture_calls_append (a b : List Event) :
    texture_calls (a ++ b) = texture_calls a ++ texture_calls b := by
  simp [texture_calls, List.filter_append]

theorem made_free_events (t : Nat) : made (free_events t) = [] := by
  unfold free_events made
  split_ifs <;> rfl

theorem freed_free_events (t : Nat) : freed (free_events t) = if t ≠ 0 then [t] else [] := by
  unfold free_events freed
  split_ifs <;> rfl

theorem made_create (a b : Int) (x y z r : Nat) :
    made [Event.texture_create a b x y z r] = if r ≠ 0 then [r] else [] := by
  unfold made
  by_cases h : r = 0 <;> simp [h]

theorem freed_create (a b : Int) (x y z r : Nat) :
    freed [Event.texture_create a b x y z r] = [] := rfl

theorem Owned.init : Owned World.init := by
  constructor
  · intro t
    simp only [World.init, made, List.filterMap_nil, List.not_mem_nil, false_iff]
    omega
  · exact List.nodup_nil
  · intro t ht
    simp [World.init, freed] at ht
  · exact List.nodup_nil
  · intro t
    simp only [World.init, List.not_mem_nil, false_iff]
    omega
  · exact List.nodup_nil
  · intro t
    simp only [World.init, List.not_mem_nil, false_iff]
    rintro ⟨h0, i, _, hi⟩
    rcases i with _ | _ | _ | i <;> exact h0 hi.symm
  · intro i j _ _ h0
    exfalso
    rcases i with _ | _ | _ | i <;> exact h0 rfl

theorem Owned.free_slot {w : World} (h : Owned w) (i : Nat) (hi : i < 3) :
    Owned (free_slot i w) := by
  rw [free_slot_eq]
  by_cases ht : w.GlassLinkTexs.get i = 0
  · have hs : w.GlassLinkTexs.set i 0 = w.GlassLinkTexs := by
      conv_lhs => rw [← ht]
      exact Arr3.get_set_self _ _
    simp only [ht, ne_eq, not_true_eq_false, if_false, free_events, List.append_nil, hs]
    exact h
  · have hl : w.GlassLinkTexs.get i ∈ w.live := (h.slot_live _).2 ⟨ht, i, hi, rfl⟩
    have hl2 := (h.live_iff _).1 hl
    have hm : made (w.trace ++ free_events (w.GlassLinkTexs.get i)) = made w.trace := by
      rw [made_append, made_free_events, List.append_nil]
    have hf : freed (w.trace ++ free_events (w.GlassLinkTexs.get i)) =
        freed w.trace ++ [w.GlassLinkTexs.get i] := by
      rw [freed_append, freed_free_events, if_pos ht]
    constructor
    · intro t
      simp only [hm]
      exact h.made_iff t
    · simp only [hm]
      exact h.made_nodup
    · intro t
      simp only [hf, List.mem_append, List.mem_singleton]
      rintro (h1 | rfl)
      · exact h.freed_made t h1
      · exact ⟨hl2.1, hl2.2.1⟩
    · simp only [hf]
      refine List.Nodup.append h.freed_nodup (List.nodup_singleton _) ?_
      simp only [List.disjoint_singleton]
      exact hl2.2.2
    · intro t
      simp only [hf, ne_eq, ht, not_false_eq_true, if_true, List.mem_append, List.mem_singleton,
        h.live_nodup.mem_erase_iff, h.live_iff t]
      tauto
    · simp only [ne_eq, ht, not_false_eq_true, if_true]
      exact h.live_nodup.erase _
    · intro t
      simp only [ne_eq, ht, not_false_eq_true, if_true, h.live_nodup.mem_erase_iff, h.slot_live t]
      constructor
      · rintro ⟨hne, h0, j, hj, rfl⟩
        refine ⟨h0, j, hj, ?_⟩
        have hij : i ≠ j := by
          rintro rfl
          exact hne rfl
        exact Arr3.get_set_ne _ _ _ _ hij
      · rintro ⟨h0, j, hj, rfl⟩
        have hij : i ≠ j := by
          rintro rfl
          exact h0 (Arr3.get_set_same _ _ _ hi)
        rw [Arr3.get_set_ne _ _ _ _ hij] at h0 ⊢
        refine ⟨?_, h0, j, hj, rfl⟩
        intro heq
        exact hij (h.slot_inj i j hi hj ht heq.symm)
    · intro j k hj hk hne heq
      have hij : i ≠ j := by
        rintro rfl
        exact hne (Arr3.get_set_same _ _ _ hi)
      simp only [Arr3.get_set_ne _ _ _ _ hij] at hne heq
      have hik : i ≠ k := by
        rintro rfl
        rw [Arr3.get_set_same _ _ _ hi] at heq
        exact hne heq
      rw [Arr3.get_set_ne _ _ _ _ hik] at heq
      exact h.slot_inj j k hj hk hne heq

theorem Owned.create_slot {w : World} (h : Owned w) (f : Frame) (i : Nat) (hi : i < 3)
    (ht : w.GlassLinkTexs.get i = 0) : Owned (create_slot f i w) := by
  rw [create_slot_eq]
  by_cases hok : f.createOk.get i = true
  · have hn : w.created + 1 ∉ w.live := fun hm => by
      have := ((h.live_iff _).1 hm).2.1
      omega
    simp only [hok, if_true]
    constructor
    · intro t
      simp only [made_append, made_create, ne_eq, Nat.add_one_ne_zero, not_false_eq_true, if_true,
        List.mem_append, List.mem_singleton, h.made_iff t]
      omega
    · simp only [made_append, made_create, ne_eq, Nat.add_one_ne_zero, not_false_eq_true, if_true]
      refine List.Nodup.append h.made_nodup (List.nodup_singleton _) ?_
      simp only [List.disjoint_singleton]
      intro hm
      have := ((h.made_iff _).1 hm).2
      omega
    · intro t
      simp only [freed_append, freed_create, List.append_nil]
      intro hm
      have := h.freed_made t hm
      omega
    · simp only [freed_append, freed_create, List.append_nil]
      exact h.freed_nodup
    · intro t
      simp only [freed_append, freed_create, List.append_nil, List.mem_cons, h.live_iff t]
      constructor
      · rintro (rfl | ⟨h1, h2, h3⟩)
        · refine ⟨by omega, le_refl _, ?_⟩
          intro hm
          have := (h.freed_made _ hm).2
          omega
        · exact ⟨h1, by omega, h3⟩
      · rintro ⟨h1, h2, h3⟩
        by_cases he : t = w.created + 1
        · exact Or.inl he
        · exact Or.inr ⟨h1, by omega, h3⟩
    · exact List.nodup_cons.2 ⟨hn, h.live_nodup⟩
    · intro t
      simp only [List.mem_cons, h.slot_live t]
      constructor
      · rintro (rfl | ⟨h0, j, hj, rfl⟩)
        · exact ⟨by omega, i, hi, Arr3.get_set_same _ _ _ hi⟩
        · have hij : i ≠ j := by
            rintro rfl
            exact h0 ht
          exact ⟨h0, j, hj, Arr3.get_set_ne _ _ _ _ hij⟩
      · rintro ⟨h0, j, hj, rfl⟩
        by_cases hij : i = j
        · subst hij
          exact Or.inl (Arr3.get_set_same _ _ _ hi)
        · rw [Arr3.get_set_ne _ _ _ _ hij] at h0 ⊢
          exact Or.inr ⟨h0, j, hj, rfl⟩
    · intro j k hj hk hne heq
      have hfresh : ∀ m, m < 3 → w.GlassLinkTexs.get m ≠ w.created + 1 := by
        intro m hm he
        exact hn ((h.slot_live _).2 ⟨by omega, m, hm, he⟩)
      by_cases hij : i = j
      · subst hij
        by_cases hik : i = k
        · exact hik
        · rw [Arr3.get_set_same _ _ _ hi, Arr3.get_set_ne _ _ _ _ hik] at heq
          exact absurd heq.symm (hfresh k hk)
      · by_cases hik : i = k
        · subst hik
          rw [Arr3.get_set_same _ _ _ hi, Arr3.get_set_ne _ _ _ _ hij] at heq
          exact absurd heq (hfresh j hj)
        · rw [Arr3.get_set_ne _ _ _ _ hij] at hne heq
          rw [Arr3.get_set_ne _ _ _ _ hik] at heq
          exact h.slot_inj j k hj hk hne heq
  · have hs : w.GlassLinkTexs.set i 0 = w.GlassLinkTexs := by
      conv_lhs => rw [← ht]
      exact Arr3.get_set_self _ _
    simp only [hok, if_false, hs, Bool.false_eq_true]
    constructor
    · intro t
      simp only [made_append, made_create, ne_eq, not_true_eq_false, if_false, List.append_nil]
      exact h.made_iff t
    · simp only [made_append, made_create, ne_eq, not_true_eq_false, if_false, List.append_nil]
      exact h.made_nodup
    · intro t
      simp only [freed_append, freed_create, List.append_nil]
      exact h.freed_made t
    · simp only [freed_append, freed_create, List.append_nil]
      exact h.freed_nodup
    · intro t
      simp only [freed_append, freed_create, List.append_nil]
      exact h.live_iff t
    · exact h.live_nodup
    · exact h.slot_live
    · exact h.slot_inj

theorem free_slot_get_self (i : Nat) (hi : i < 3) (w : World) :
    (free_slot i w).GlassLinkTexs.get i = 0 := by
  rw [free_slot_eq]
  exact Arr3.get_set_same _ _ _ hi

theorem Owned.import_slot {w : World} (h : Owned w) (f : Frame) (i : Nat) (hi : i < 3) :
    Owned (import_slot f i w) :=
  Owned.create_slot (Owned.free_slot h i hi) f i hi (free_slot_get_self i hi w)

/-- The invariant depends on the slots, the GPU layer and the texture calls of
the log only. -/
theorem Owned.congr {w w1 : World} (h : Owned w) (ht : w1.GlassLinkTexs = w.GlassLinkTexs)
    (hl : w1.live = w.live) (hc : w1.created = w.created) (hm : made w1.trace = made w.trace)
    (hf : freed w1.trace = freed w.trace) : Owned w1 := by
  constructor
  · rw [hm, hc]; exact h.made_iff
  · rw [hm]; exact h.made_nodup
  · rw [hf, hc]; exact h.freed_made
  · rw [hf]; exact h.freed_nodup
  · rw [hf, hc, hl]; exact h.live_iff
  · rw [hl]; exact h.live_nodup
  · rw [hl, ht]; exact h.slot_live
  · rw [ht]; exact h.slot_inj

/-! ## Lemmas on `poll` and `begin_sync` -/

theorem shared_mem_init_eq (f : Frame) (w : World) :
    shared_mem_init f w =
      { w with
        SharedMem := if w.SharedMem = false then f.initOk else w.SharedMem
        trace := w.trace ++ init_events f w } := by
  unfold shared_mem_init init_events SharedMemory_Init emit
  split_ifs <;> simp

theorem begin_sync_eq (c : Decls) (f : Frame) (w : World) :
    begin_sync c f w =
      { poll f w with
        bg_ps_ := (begin_sync c f w).bg_ps_
        iGlassLinkTex := ((poll f w).iGlassLinkTex + 1) % 3
        trace := (poll f w).trace ++ draw_events c f (poll f w) } := by
  simp only [begin_sync, fill, bind_selected, clip_bound, wait_selected, record, emit, bg_ps_init,
    draw_events, clip_cmds, bind_cmds]
  cases f.state.rv3d <;> simp <;> split_ifs <;> simp

theorem made_map_pass (l : List PassCmd) : made (l.map Event.pass) = [] := by
  simp [made, List.filterMap_map, Function.comp_def]

theorem freed_map_pass (l : List PassCmd) : freed (l.map Event.pass) = [] := by
  simp [freed, List.filterMap_map, Function.comp_def]

theorem texture_calls_map_pass (l : List PassCmd) : texture_calls (l.map Event.pass) = [] := by
  simp [texture_calls, List.filter_map, Function.comp_def]

theorem made_draw_events (c : Decls) (f : Frame) (w : World) : made (draw_events c f w) = [] := by
  unfold draw_events
  rw [← List.singleton_append, ← List.singleton_append (l := _ ++ _), made_append, made_append,
    made_append, made_map_pass]
  split_ifs <;> rfl

theorem freed_draw_events (c : Decls) (f : Frame) (w : World) : freed (draw_events c f w) = [] := by
  unfold draw_events
  rw [← List.singleton_append, ← List.singleton_append (l := _ ++ _), freed_append, freed_append,
    freed_append, freed_map_pass]
  split_ifs <;> rfl

theorem texture_calls_draw_events (c : Decls) (f : Frame) (w : World) :
    texture_calls (draw_events c f w) = [] := by
  unfold draw_events
  rw [← List.singleton_append, ← List.singleton_append (l := _ ++ _), texture_calls_append,
    texture_calls_append, texture_calls_append, texture_calls_map_pass]
  split_ifs <;> rfl

theorem release_not_mem_draw_events (c : Decls) (f : Frame) (w : World) :
    Event.shm_release ∉ draw_events c f w := by
  unfold draw_events
  simp only [List.mem_cons, List.mem_append, List.mem_map, not_or]
  refine ⟨by simp, by simp, ?_, by simp⟩
  split_ifs <;> simp

theorem import_slot_eq (f : Frame) (i : Nat) (w : World) :
    import_slot f i w =
      { w with
        GlassLinkTexs := w.GlassLinkTexs.set i (if f.createOk.get i then w.created + 1 else 0)
        live :=
          if f.createOk.get i then (w.created + 1) :: (free_slot i w).live
          else (free_slot i w).live
        created := if f.createOk.get i then w.created + 1 else w.created
        trace := w.trace ++ free_events (w.GlassLinkTexs.get i) ++
          [Event.texture_create w.GlassLinkShared.Width
            w.GlassLinkShared.Height (w.GlassLinkShared.SharedTexHandles.get i)
            w.GlassLinkShared.SharedTexSize w.GlassLinkShared.SharedFenceHandle
            (if f.createOk.get i then w.created + 1 else 0)] } := by
  unfold import_slot
  rw [create_slot_eq, free_slot_eq]
  simp only [Arr3.set_set]

theorem apply_shared_same (f : Frame) (D : CGlassLinkShared) (w : World)
    (h : w.GlassLinkShared = D) : apply_shared f D w = w := by
  unfold apply_shared
  rw [if_neg (not_not.2 h)]

theorem apply_shared_import (f : Frame) (D : CGlassLinkShared) (w : World)
    (h : w.GlassLinkShared ≠ D) (h0 : D.SharedTexHandles.get 0 ≠ 0) (hs : D.SharedTexSize ≠ 0) :
    apply_shared f D w =
      import_slot f 2 (import_slot f 1 (import_slot f 0 { w with GlassLinkShared := D })) := by
  unfold apply_shared
  rw [if_pos h]
  simp only [for3_eq]
  rw [if_pos ⟨h0, hs⟩]

theorem apply_shared_teardown (f : Frame) (D : CGlassLinkShared) (w : World)
    (h : w.GlassLinkShared ≠ D) (h0 : D.SharedTexHandles.get 0 = 0 ∨ D.SharedTexSize = 0) :
    apply_shared f D w =
      emit Event.shm_release
        { free_slot 2 (free_slot 1 (free_slot 0 { w with GlassLinkShared := D })) with
          SharedMem := false } := by
  unfold apply_shared
  rw [if_pos h]
  simp only [for3_eq]
  rw [if_neg (by tauto)]
  rfl

theorem poll_eq (f : Frame) (w : World) :
    poll f w =
      match read_record f w with
      | some D => apply_shared f D (shared_mem_init f w)
      | none => shared_mem_init f w := rfl

theorem Owned.apply_shared {w : World} (h : Owned w) (f : Frame) (D : CGlassLinkShared) :
    Owned (apply_shared f D w) := by
  have hw : Owned { w with GlassLinkShared := D } := Owned.congr h rfl rfl rfl rfl rfl
  by_cases hD : w.GlassLinkShared = D
  · rw [apply_shared_same f D w hD]
    exact h
  by_cases hv : D.SharedTexHandles.get 0 ≠ 0 ∧ D.SharedTexSize ≠ 0
  · rw [apply_shared_import f D w hD hv.1 hv.2]
    exact Owned.import_slot (Owned.import_slot (Owned.import_slot hw f 0 (by omega)) f 1
      (by omega)) f 2 (by omega)
  · rw [apply_shared_teardown f D w hD (by tauto)]
    have h3 := Owned.free_slot (Owned.free_slot (Owned.free_slot hw 0 (by omega)) 1 (by omega)) 2
      (by omega)
    refine Owned.congr h3 rfl rfl rfl ?_ ?_
    · simp [emit, made_append, made]
    · simp [emit, freed_append, freed]

theorem Owned.poll {w : World} (h : Owned w) (f : Frame) : Owned (poll f w) := by
  have h1 : Owned (shared_mem_init f w) := by
    rw [shared_mem_init_eq]
    refine Owned.congr h rfl rfl rfl ?_ ?_
    · simp only [made_append, init_events]
      split_ifs <;> simp [made]
    · simp only [freed_append, init_events]
      split_ifs <;> simp [freed]
  rw [poll_eq]
  cases read_record f w with
  | none => exact h1
  | some D => exact Owned.apply_shared h1 f D

theorem Owned.begin_sync {w : World} (h : Owned w) (c : Decls) (f : Frame) :
    Owned (begin_sync c f w) := by
  rw [begin_sync_eq]
  refine Owned.congr (Owned.poll h f) rfl rfl rfl ?_ ?_
  · simp only [made_append, made_draw_events, List.append_nil]
  · simp only [freed_append, freed_draw_events, List.append_nil]

theorem run_append (c : Decls) (fs : List Frame) (f : Frame) (w : World) :
    run c (fs ++ [f]) w = begin_sync c f (run c fs w) := by
  simp [run, List.foldl_append]

theorem Owned.run {w : World} (h : Owned w) (c : Decls) (fs : List Frame) :
    Owned (run c fs w) := by
  induction fs generalizing w with
  | nil => exact h
  | cons f fs ih => exact ih (Owned.begin_sync h c f)

/-! ## The three cases of the GlassLink block -/

theorem read_record_eq (f : Frame) (w : World) :
    read_record f w = if w.SharedMem = true ∨ f.initOk = true then some f.shared else none := by
  unfold read_record get_data shared_mem_init SharedMemory_Init emit
  cases hS : w.SharedMem <;> cases hI : f.initOk <;> simp [hS]

theorem read_record_shared (f : Frame) (w : World) (D : CGlassLinkShared)
    (h : read_record f w = some D) : f.shared = D := by
  rw [read_record_eq] at h
  split_ifs at h
  exact Option.some.inj h

theorem read_record_mapped (f : Frame) (w : World) (D : CGlassLinkShared)
    (h : read_record f w = some D) : (shared_mem_init f w).SharedMem = true := by
  unfold read_record get_data at h
  split_ifs at h with hm
  exact hm

theorem poll_noop (f : Frame) (w : World)
    (h : read_record f w = none ∨ read_record f w = some w.GlassLinkShared) :
    poll f w = shared_mem_init f w := by
  rw [poll_eq]
  rcases h with h | h
  · rw [h]
  · rw [h]
    exact apply_shared_same f _ _ (by rw [shared_mem_init_eq])

theorem poll_import (f : Frame) (w : World) (D : CGlassLinkShared)
    (hr : read_record f w = some D) (hne : D ≠ w.GlassLinkShared)
    (h0 : D.SharedTexHandles.get 0 ≠ 0) (hs : D.SharedTexSize ≠ 0) :
    poll f w =
      import_slot f 2 (import_slot f 1 (import_slot f 0
        { shared_mem_init f w with GlassLinkShared := D })) := by
  rw [poll_eq, hr]
  exact apply_shared_import f D _ (by rw [shared_mem_init_eq]; exact fun h => hne h.symm) h0 hs

theorem poll_teardown (f : Frame) (w : World) (D : CGlassLinkShared)
    (hr : read_record f w = some D) (hne : D ≠ w.GlassLinkShared)
    (h0 : D.SharedTexHandles.get 0 = 0 ∨ D.SharedTexSize = 0) :
    poll f w =
      emit Event.shm_release
        { free_slot 2 (free_slot 1 (free_slot 0
            { shared_mem_init f w with GlassLinkShared := D })) with SharedMem := false } := by
  rw [poll_eq, hr]
  exact apply_shared_teardown f D _ (by rw [shared_mem_init_eq]; exact fun h => hne h.symm) h0

theorem import3_trace (f : Frame) (w : World) :
    (import_slot f 2 (import_slot f 1 (import_slot f 0 w))).trace =
      w.trace ++ import_calls w.GlassLinkShared w.GlassLinkTexs
        (import_slot f 2 (import_slot f 1 (import_slot f 0 w))).GlassLinkTexs := by
  rw [import_slot_eq f 2, import_slot_eq f 1, import_slot_eq f 0]
  simp [import_calls, Arr3.get, Arr3.set]

theorem import3_shared (f : Frame) (w : World) :
    (import_slot f 2 (import_slot f 1 (import_slot f 0 w))).GlassLinkShared =
      w.GlassLinkShared := by
  rw [import_slot_eq f 2, import_slot_eq f 1, import_slot_eq f 0]

theorem import3_mapped (f : Frame) (w : World) :
    (import_slot f 2 (import_slot f 1 (import_slot f 0 w))).SharedMem = w.SharedMem := by
  rw [import_slot_eq f 2, import_slot_eq f 1, import_slot_eq f 0]

theorem import3_index (f : Frame) (w : World) :
    (import_slot f 2 (import_slot f 1 (import_slot f 0 w))).iGlassLinkTex = w.iGlassLinkTex := by
  rw [import_slot_eq f 2, import_slot_eq f 1, import_slot_eq f 0]

theorem import3_texs (f : Frame) (w : World) (i : Nat) (hi : i < 3) :
    (import_slot f 2 (import_slot f 1 (import_slot f 0 w))).GlassLinkTexs.get i = 0 ∧
        f.createOk.get i = false ∨
      w.created < (import_slot f 2 (import_slot f 1 (import_slot f 0 w))).GlassLinkTexs.get i ∧
        f.createOk.get i = true := by
  rw [import_slot_eq f 2, import_slot_eq f 1, import_slot_eq f 0]
  rcases i with _ | _ | _ | i
  · cases h0 : f.createOk.get 0 <;> simp [Arr3.get, Arr3.set, h0]
  · cases h0 : f.createOk.get 0 <;> cases h1 : f.createOk.get 1 <;>
      simp [Arr3.get, Arr3.set, h0, h1]
    omega
  · cases h0 : f.createOk.get 0 <;> cases h1 : f.createOk.get 1 <;>
      cases h2 : f.createOk.get 2 <;> simp [Arr3.get, Arr3.set, h0, h1, h2] <;> omega
  · omega

theorem free3_eq (w : World) :
    free_slot 2 (free_slot 1 (free_slot 0 w)) =
      { w with
        GlassLinkTexs := ⟨0, 0, 0⟩
        live := (free_slot 2 (free_slot 1 (free_slot 0 w))).live
        trace := w.trace ++ (held w).map Event.texture_free } := by
  rw [free_slot_eq 2, free_slot_eq 1, free_slot_eq 0]
  simp only [held, Arr3.toList, Arr3.get, Arr3.set, free_events]
  by_cases h0 : w.GlassLinkTexs.e0 = 0 <;> by_cases h1 : w.GlassLinkTexs.e1 = 0 <;>
    by_cases h2 : w.GlassLinkTexs.e2 = 0 <;> simp [h0, h1, h2, List.filter]

/-! ## What one call of `begin_sync` does, case by case -/

theorem begin_sync_texs (c : Decls) (f : Frame) (w : World) :
    (begin_sync c f w).GlassLinkTexs = (poll f w).GlassLinkTexs := by
  rw [begin_sync_eq]

theorem begin_sync_shared (c : Decls) (f : Frame) (w : World) :
    (begin_sync c f w).GlassLinkShared = (poll f w).GlassLinkShared := by
  rw [begin_sync_eq]

theorem begin_sync_mapped (c : Decls) (f : Frame) (w : World) :
    (begin_sync c f w).SharedMem = (poll f w).SharedMem := by
  rw [begin_sync_eq]

theorem begin_sync_live (c : Decls) (f : Frame) (w : World) :
    (begin_sync c f w).live = (poll f w).live := by
  rw [begin_sync_eq]

theorem begin_sync_index (c : Decls) (f : Frame) (w : World) :
    (begin_sync c f w).iGlassLinkTex = ((poll f w).iGlassLinkTex + 1) % 3 := by
  rw [begin_sync_eq]

theorem begin_sync_trace (c : Decls) (f : Frame) (w : World) :
    (begin_sync c f w).trace = (poll f w).trace ++ draw_events c f (poll f w) := by
  rw [begin_sync_eq]

theorem frame_events_of_poll (c : Decls) (f : Frame) (w : World) (ev : List Event)
    (h : (poll f w).trace = w.trace ++ ev) :
    frame_events c f w = ev ++ draw_events c f (poll f w) := by
  unfold frame_events
  rw [begin_sync_trace, h, List.append_assoc, List.drop_left]

theorem poll_index (f : Frame) (w : World) : (poll f w).iGlassLinkTex = w.iGlassLinkTex := by
  rw [poll_eq]
  cases hr : read_record f w with
  | none => simp only [shared_mem_init_eq]
  | some D =>
    simp only
    by_cases hD : (shared_mem_init f w).GlassLinkShared = D
    · rw [apply_shared_same f D _ hD, shared_mem_init_eq]
    by_cases hv : D.SharedTexHandles.get 0 ≠ 0 ∧ D.SharedTexSize ≠ 0
    · rw [apply_shared_import f D _ hD hv.1 hv.2, import3_index, shared_mem_init_eq]
    · rw [apply_shared_teardown f D _ hD (by tauto), free3_eq, shared_mem_init_eq]
      rfl

theorem frame_noop (c : Decls) (f : Frame) (w : World)
    (h : read_record f w = none ∨ read_record f w = some w.GlassLinkShared) :
    frame_events c f w = init_events f w ++ draw_events c f (poll f w) ∧
    (begin_sync c f w).GlassLinkShared = w.GlassLinkShared ∧
    (begin_sync c f w).GlassLinkTexs = w.GlassLinkTexs ∧
    (begin_sync c f w).live = w.live := by
  have hp := poll_noop f w h
  refine ⟨frame_events_of_poll c f w _ (by rw [hp, shared_mem_init_eq]), ?_, ?_, ?_⟩
  · rw [begin_sync_shared, hp, shared_mem_init_eq]
  · rw [begin_sync_texs, hp, shared_mem_init_eq]
  · rw [begin_sync_live, hp, shared_mem_init_eq]

theorem frame_import (c : Decls) (f : Frame) (w : World) (D : CGlassLinkShared)
    (hr : read_record f w = some D) (hne : D ≠ w.GlassLinkShared)
    (h0 : D.SharedTexHandles.get 0 ≠ 0) (hs : D.SharedTexSize ≠ 0) :
    frame_events c f w =
      init_events f w ++ import_calls D w.GlassLinkTexs (begin_sync c f w).GlassLinkTexs ++
        draw_events c f (poll f w) ∧
    (begin_sync c f w).GlassLinkShared = D ∧
    (begin_sync c f w).SharedMem = true ∧
    ∀ i, i < 3 →
      ((begin_sync c f w).GlassLinkTexs.get i = 0 ∧ f.createOk.get i = false ∨
        w.created < (begin_sync c f w).GlassLinkTexs.get i ∧ f.createOk.get i = true) := by
  have hp := poll_import f w D hr hne h0 hs
  refine ⟨frame_events_of_poll c f w _ ?_, ?_, ?_, ?_⟩
  · rw [begin_sync_texs]
    conv_lhs => rw [hp, import3_trace]
    rw [← hp, shared_mem_init_eq, List.append_assoc]
  · rw [begin_sync_shared, hp, import3_shared]
  · rw [begin_sync_mapped, hp, import3_mapped]
    exact read_record_mapped f w D hr
  · intro i hi
    rw [begin_sync_texs, hp]
    have := import3_texs f { shared_mem_init f w with GlassLinkShared := D } i hi
    rw [shared_mem_init_eq] at this ⊢
    exact this

theorem frame_teardown (c : Decls) (f : Frame) (w : World) (D : CGlassLinkShared)
    (hr : read_record f w = some D) (hne : D ≠ w.GlassLinkShared)
    (h0 : D.SharedTexHandles.get 0 = 0 ∨ D.SharedTexSize = 0) :
    frame_events c f w =
      init_events f w ++ (held w).map Event.texture_free ++ [Event.shm_release] ++
        draw_events c f (poll f w) ∧
    (begin_sync c f w).GlassLinkShared = D ∧
    (begin_sync c f w).SharedMem = false ∧
    (begin_sync c f w).GlassLinkTexs = ⟨0, 0, 0⟩ := by
  have hp := poll_teardown f w D hr hne h0
  refine ⟨frame_events_of_poll c f w _ ?_, ?_, ?_, ?_⟩
  · rw [hp, free3_eq, shared_mem_init_eq]
    simp [emit, held]
  · rw [begin_sync_shared, hp, free3_eq]
    rfl
  · rw [begin_sync_mapped, hp]
    rfl
  · rw [begin_sync_texs, hp, free3_eq]
    rfl

theorem texture_calls_init_events (f : Frame) (w : World) :
    texture_calls (init_events f w) = [] := by
  unfold init_events
  split_ifs <;> rfl

theorem texture_calls_free_events (t : Nat) : texture_calls (free_events t) = free_events t := by
  unfold free_events
  split_ifs <;> rfl

theorem texture_calls_import_calls (D : CGlassLinkShared) (old new : Arr3 Nat) :
    texture_calls (import_calls D old new) = import_calls D old new := by
  unfold import_calls
  simp only [texture_calls_append, texture_calls_free_events]
  rfl

theorem texture_calls_map_free (l : List Nat) :
    texture_calls (l.map Event.texture_free) = l.map Event.texture_free := by
  simp [texture_calls, List.filter_map, Function.comp_def]

theorem freed_map_free (l : List Nat) : freed (l.map Event.texture_free) = l := by
  simp [freed, List.filterMap_map, Function.comp_def]

theorem snapshot_after_read (c : Decls) (f : Frame) (w : World) (D : CGlassLinkShared)
    (hr : read_record f w = some D) : (begin_sync c f w).GlassLinkShared = D := by
  by_cases hD : D = w.GlassLinkShared
  · rw [(frame_noop c f w (Or.inr (hD ▸ hr))).2.1, hD]
  by_cases hv : D.SharedTexHandles.get 0 ≠ 0 ∧ D.SharedTexSize ≠ 0
  · exact (frame_import c f w D hr hD hv.1 hv.2).2.1
  · exact (frame_teardown c f w D hr hD (by tauto)).2.1

theorem acted_append (a b : List Event) : acted (a ++ b) = (acted a || acted b) := by
  simp [acted, List.any_append]

theorem acted_init_events (f : Frame) (w : World) : acted (init_events f w) = false := by
  unfold init_events
  split_ifs <;> rfl

theorem acted_draw_events (c : Decls) (f : Frame) (w : World) :
    acted (draw_events c f w) = false := by
  unfold draw_events
  rw [← List.singleton_append, ← List.singleton_append (l := _ ++ _), acted_append, acted_append,
    acted_append]
  have h : ∀ l : List PassCmd, acted (l.map Event.pass) = false := by
    intro l
    simp [acted, List.any_map, Function.comp_def]
  rw [h]
  split_ifs <;> rfl

theorem acted_import_calls (D : CGlassLinkShared) (old new : Arr3 Nat) :
    acted (import_calls D old new) = true := by
  unfold import_calls
  simp [acted_append, acted]

/-- What a frame does to the snapshot, and whether it acted, in the three cases. -/
theorem frame_acted (c : Decls) (f : Frame) (w : World) :
    (acted (frame_events c f w) = false ∧
        (begin_sync c f w).GlassLinkShared = w.GlassLinkShared ∧
        texture_calls (frame_events c f w) = []) ∨
      (acted (frame_events c f w) = true ∧ f.shared ≠ w.GlassLinkShared ∧
        (begin_sync c f w).GlassLinkShared = f.shared ∧
        (texture_calls (frame_events c f w) =
            import_calls f.shared w.GlassLinkTexs (begin_sync c f w).GlassLinkTexs ∨
          texture_calls (frame_events c f w) = (held w).map Event.texture_free ∧
            Event.shm_release ∈ frame_events c f w ∧
            (begin_sync c f w).GlassLinkTexs = ⟨0, 0, 0⟩)) := by
  cases hr : read_record f w with
  | none =>
    left
    obtain ⟨h1, h2, _, _⟩ := frame_noop c f w (Or.inl hr)
    refine ⟨?_, h2, ?_⟩
    · rw [h1, acted_append, acted_init_events, acted_draw_events]; rfl
    · rw [h1, texture_calls_append, texture_calls_init_events, texture_calls_draw_events]; rfl
  | some D =>
    have hs : f.shared = D := read_record_shared f w D hr
    by_cases hD : D = w.GlassLinkShared
    · left
      obtain ⟨h1, h2, _, _⟩ := frame_noop c f w (Or.inr (hD ▸ hr))
      refine ⟨?_, h2, ?_⟩
      · rw [h1, acted_append, acted_init_events, acted_draw_events]; rfl
      · rw [h1, texture_calls_append, texture_calls_init_events, texture_calls_draw_events]; rfl
    right
    by_cases hv : D.SharedTexHandles.get 0 ≠ 0 ∧ D.SharedTexSize ≠ 0
    · obtain ⟨h1, h2, _, _⟩ := frame_import c f w D hr hD hv.1 hv.2
      refine ⟨?_, hs ▸ hD, hs ▸ h2, Or.inl ?_⟩
      · rw [h1, acted_append, acted_append, acted_import_calls]; simp
      · rw [h1, texture_calls_append, texture_calls_append, texture_calls_init_events,
          texture_calls_draw_events, texture_calls_import_calls, hs]; simp
    · obtain ⟨h1, h2, _, h4⟩ := frame_teardown c f w D hr hD (by tauto)
      refine ⟨?_, hs ▸ hD, hs ▸ h2, Or.inr ⟨?_, ?_, h4⟩⟩
      · rw [h1]; simp [acted_append, acted]
      · rw [h1, texture_calls_append, texture_calls_append, texture_calls_append,
          texture_calls_init_events, texture_calls_draw_events, texture_calls_map_free]
        simp [texture_calls]
      · rw [h1]; simp

theorem last_acted_eq_run (c : Decls) (fs : List Frame) (w : World) :
    last_acted c fs w w.GlassLinkShared = (run c fs w).GlassLinkShared := by
  induction fs generalizing w with
  | nil => rfl
  | cons f fs ih =>
    have hstep : (if acted (frame_events c f w) then f.shared else w.GlassLinkShared) =
        (begin_sync c f w).GlassLinkShared := by
      rcases frame_acted c f w with ⟨h1, h2, _⟩ | ⟨h1, _, h2, _⟩
      · rw [h1, h2]; rfl
      · rw [h1, h2]; rfl
    show last_acted c fs (begin_sync c f w) _ = (run c fs (begin_sync c f w)).GlassLinkShared
    rw [hstep]
    exact ih (begin_sync c f w)

theorem run_index (c : Decls) (fs : List Frame) (w : World) :
    (run c fs w).iGlassLinkTex % 3 = (w.iGlassLinkTex + fs.length) % 3 := by
  induction fs generalizing w with
  | nil => rfl
  | cons f fs ih =>
    show (run c fs (begin_sync c f w)).iGlassLinkTex % 3 = _
    rw [ih (begin_sync c f w), begin_sync_index, poll_index, List.length_cons]
    omega

theorem run_index_lt (c : Decls) (fs : List Frame) (w : World) (h : w.iGlassLinkTex < 3) :
    (run c fs w).iGlassLinkTex < 3 := by
  induction fs generalizing w with
  | nil => exact h
  | cons f fs ih =>
    refine ih (begin_sync c f w) ?_
    rw [begin_sync_index]
    omega

theorem run_init_index (c : Decls) (fs : List Frame) :
    (run c fs World.init).iGlassLinkTex = fs.length % 3 := by
  have h1 := run_index c fs World.init
  have h2 := run_index_lt c fs World.init (by decide)
  have h3 : World.init.iGlassLinkTex = 0 := rfl
  rw [h3] at h1
  omega

/-- The calls of the GlassLink block of a frame contain no wait. -/
theorem wait_mem_frame_events (c : Decls) (f : Frame) (w : World) (t : Nat)
    (h : Event.wait_semaphore t ∈ frame_events c f w) :
    Event.wait_semaphore t ∈ draw_events c f (poll f w) := by
  have hi : Event.wait_semaphore t ∉ init_events f w := by
    unfold init_events
    split_ifs <;> simp
  cases hr : read_record f w with
  | none =>
    rw [(frame_noop c f w (Or.inl hr)).1, List.mem_append] at h
    tauto
  | some D =>
    by_cases hD : D = w.GlassLinkShared
    · rw [(frame_noop c f w (Or.inr (hD ▸ hr))).1, List.mem_append] at h
      tauto
    by_cases hv : D.SharedTexHandles.get 0 ≠ 0 ∧ D.SharedTexSize ≠ 0
    · rw [(frame_import c f w D hr hD hv.1 hv.2).1, List.mem_append, List.mem_append] at h
      have hc : Event.wait_semaphore t ∉
          import_calls D w.GlassLinkTexs (begin_sync c f w).GlassLinkTexs := by
        unfold import_calls free_events
        simp only [List.mem_append, not_or]
        refine ⟨⟨⟨⟨⟨?_, by simp⟩, ?_⟩, by simp⟩, ?_⟩, by simp⟩ <;> split_ifs <;> simp
      tauto
    · rw [(frame_teardown c f w D hr hD (by tauto)).1] at h
      simp only [List.mem_append, List.mem_map, List.mem_singleton] at h
      rcases h with ((h | ⟨_, _, h⟩) | h) | h
      · exact absurd h hi
      · cases h
      · cases h
      · exact h

theorem held_mem_iff (w : World) (t : Nat) :
    t ∈ held w ↔ (t ≠ 0 ∧ ∃ i, i < 3 ∧ w.GlassLinkTexs.get i = t) := by
  simp only [held, Arr3.toList, List.mem_filter, List.mem_cons, List.mem_singleton,
    List.not_mem_nil, or_false, decide_eq_true_eq]
  constructor
  · rintro ⟨h | h | h, h0⟩
    · exact ⟨h0, 0, by omega, h.symm⟩
    · exact ⟨h0, 1, by omega, h.symm⟩
    · exact ⟨h0, 2, by omega, h.symm⟩
  · rintro ⟨h0, i, hi, rfl⟩
    refine ⟨?_, h0⟩
    rcases i with _ | _ | _ | i
    · exact Or.inl rfl
    · exact Or.inr (Or.inl rfl)
    · exact Or.inr (Or.inr rfl)
    · omega

theorem held_nodup {w : World} (h : Owned w) : (held w).Nodup := by
  have h01 := h.slot_inj 0 1 (by omega) (by omega)
  have h02 := h.slot_inj 0 2 (by omega) (by omega)
  have h12 := h.slot_inj 1 2 (by omega) (by omega)
  have h10 := h.slot_inj 1 0 (by omega) (by omega)
  have h20 := h.slot_inj 2 0 (by omega) (by omega)
  have h21 := h.slot_inj 2 1 (by omega) (by omega)
  simp only [Arr3.get] at h01 h02 h12 h10 h20 h21
  simp only [held, Arr3.toList]
  by_cases e0 : w.GlassLinkTexs.e0 = 0 <;> by_cases e1 : w.GlassLinkTexs.e1 = 0 <;>
    by_cases e2 : w.GlassLinkTexs.e2 = 0 <;>
    simp [List.filter, e0, e1, e2] <;> omega

theorem held_length_le (w : World) : (held w).length ≤ 3 := by
  unfold held
  exact (List.length_filter_le _ _).trans (by simp [Arr3.toList])

/-! ## Further lemmas on one call of `begin_sync` -/

theorem import_slot_empty_iff (c : Decls) (f : Frame) (w : World) (D : CGlassLinkShared)
    (hr : read_record f w = some D) (hne : D ≠ w.GlassLinkShared)
    (h0 : D.SharedTexHandles.get 0 ≠ 0) (hs : D.SharedTexSize ≠ 0) (i : Nat) (hi : i < 3) :
    ((begin_sync c f w).GlassLinkTexs.get i = 0 ↔ f.createOk.get i = false) := by
  rcases (frame_import c f w D hr hne h0 hs).2.2.2 i hi with ⟨h1, h2⟩ | ⟨h1, h2⟩
  · simp [h1, h2]
  · simp only [h2, Bool.true_eq_false, iff_false]
    omega

theorem read_record_congr (f g : Frame) (w : World) (hi : g.initOk = f.initOk)
    (hs : g.shared = f.shared) : read_record g w = read_record f w := by
  rw [read_record_eq, read_record_eq, hi, hs]

/-- The log only grows: a call appends its calls to it. -/
theorem begin_sync_trace_append (c : Decls) (f : Frame) (w : World) :
    (begin_sync c f w).trace = w.trace ++ frame_events c f w := by
  have key : ∀ ev, frame_events c f w = ev ++ draw_events c f (poll f w) →
      (poll f w).trace = w.trace ++ ev →
      (begin_sync c f w).trace = w.trace ++ frame_events c f w := by
    intro ev h1 h2
    rw [h1, begin_sync_trace, h2, List.append_assoc]
  cases hr : read_record f w with
  | none =>
    have hp := poll_noop f w (Or.inl hr)
    exact key _ (frame_noop c f w (Or.inl hr)).1 (by rw [hp, shared_mem_init_eq])
  | some D =>
    by_cases hD : D = w.GlassLinkShared
    · have hp := poll_noop f w (Or.inr (hD ▸ hr))
      exact key _ (frame_noop c f w (Or.inr (hD ▸ hr))).1 (by rw [hp, shared_mem_init_eq])
    by_cases hv : D.SharedTexHandles.get 0 ≠ 0 ∧ D.SharedTexSize ≠ 0
    · have hp := poll_import f w D hr hD hv.1 hv.2
      refine key _ (frame_import c f w D hr hD hv.1 hv.2).1 ?_
      rw [begin_sync_texs]
      conv_lhs => rw [hp, import3_trace]
      rw [← hp, shared_mem_init_eq, List.append_assoc]
    · have hp := poll_teardown f w D hr hD (by tauto)
      refine key _ (frame_teardown c f w D hr hD (by tauto)).1 ?_
      rw [hp, free3_eq, shared_mem_init_eq]
      simp [SharedMemory_Release, emit, held]

theorem link_unavailable_run (c : Decls) (fs : List Frame) (w : World)
    (h : link_unavailable c fs w = true) :
    (run c fs w).GlassLinkTexs = w.GlassLinkTexs ∧
    (run c fs w).GlassLinkShared = w.GlassLinkShared ∧
    (run c fs w).live = w.live ∧
    texture_calls (run c fs w).trace = texture_calls w.trace := by
  induction fs generalizing w with
  | nil => exact ⟨rfl, rfl, rfl, rfl⟩
  | cons f fs ih =>
    simp only [link_unavailable, Bool.and_eq_true, Option.isNone_iff_eq_none] at h
    obtain ⟨e1, e2, e3, e4⟩ := frame_noop c f w (Or.inl h.1)
    obtain ⟨i1, i2, i3, i4⟩ := ih (begin_sync c f w) h.2
    refine ⟨?_, ?_, ?_, ?_⟩
    · exact i1.trans e3
    · exact i2.trans e2
    · exact i3.trans e4
    · refine i4.trans ?_
      rw [begin_sync_trace_append, texture_calls_append, e1, texture_calls_append,
        texture_calls_init_events, texture_calls_draw_events]
      simp

theorem release_not_mem_init_events (f : Frame) (w : World) :
    Event.shm_release ∉ init_events f w := by
  unfold init_events
  split_ifs <;> simp

theorem fence_calls_append (a b : List Event) :
    fence_calls (a ++ b) = fence_calls a ++ fence_calls b := by
  simp [fence_calls, List.filter_append]

theorem fence_calls_init_events (f : Frame) (w : World) : fence_calls (init_events f w) = [] := by
  unfold init_events
  split_ifs <;> rfl

theorem fence_calls_free_events (t : Nat) : fence_calls (free_events t) = [] := by
  unfold free_events
  split_ifs <;> rfl

theorem fence_calls_import_calls (D : CGlassLinkShared) (old new : Arr3 Nat) :
    fence_calls (import_calls D old new) = [] := by
  unfold import_calls
  simp only [fence_calls_append, fence_calls_free_events]
  rfl

theorem fence_calls_map_free (l : List Nat) : fence_calls (l.map Event.texture_free) = [] := by
  simp [fence_calls, List.filter_map, Function.comp_def]

theorem fence_calls_clip_cmds (c : Decls) (state : State) :
    fence_calls ((clip_cmds c state).map Event.pass) = [] := by
  unfold clip_cmds
  cases state.rv3d with
  | none => rfl
  | some rv3d =>
    simp only
    split_ifs <;> rfl

theorem fence_calls_draw_events (c : Decls) (f : Frame) (w : World) :
    fence_calls (draw_events c f w) =
      if w.GlassLinkTexs.get w.iGlassLinkTex ≠ 0 then
        [Event.wait_semaphore (w.GlassLinkTexs.get w.iGlassLinkTex),
          Event.pass (PassCmd.bind_texture_glassLink w.iGlassLinkTex
            (w.GlassLinkTexs.get w.iGlassLinkTex))]
      else [] := by
  unfold draw_events bind_cmds
  rw [← List.singleton_append, ← List.singleton_append (l := _ ++ _)]
  simp only [fence_calls_append, List.map_append, fence_calls_clip_cmds]
  split_ifs <;> simp [fence_calls]

/-- The calls of a frame are those of the GlassLink block, which hold no wait
and no bind, followed by the calls of the pass. -/
theorem frame_events_split (c : Decls) (f : Frame) (w : World) :
    ∃ ev, frame_events c f w = ev ++ draw_events c f (poll f w) ∧ fence_calls ev = [] := by
  cases hr : read_record f w with
  | none =>
    exact ⟨_, (frame_noop c f w (Or.inl hr)).1, fence_calls_init_events f w⟩
  | some D =>
    by_cases hD : D = w.GlassLinkShared
    · exact ⟨_, (frame_noop c f w (Or.inr (hD ▸ hr))).1, fence_calls_init_events f w⟩
    by_cases hv : D.SharedTexHandles.get 0 ≠ 0 ∧ D.SharedTexSize ≠ 0
    · refine ⟨_, (frame_import c f w D hr hD hv.1 hv.2).1, ?_⟩
      rw [fence_calls_append, fence_calls_init_events, fence_calls_import_calls]
      rfl
    · refine ⟨_, (frame_teardown c f w D hr hD (by tauto)).1, ?_⟩
      rw [fence_calls_append, fence_calls_append, fence_calls_init_events, fence_calls_map_free]
      rfl

theorem deciding_rule_cases (c : Decls) (state : State) :
    deciding_rule c state =
      if (state.is_viewport_image_render && !state.draw_background) = true then 1
      else if state.space_type = eSpace_Type.SPACE_IMAGE then 2
      else if state.space_type = eSpace_Type.SPACE_NODE then 3
      else if state.draw_background = false then 4
      else if state.shading_background_type = c.V3D_SHADING_BACKGROUND_WORLD ∧
          state.world.isSome = true then 5
      else if state.shading_background_type = c.V3D_SHADING_BACKGROUND_VIEWPORT ∧
          state.shading_type ≤ c.OB_SOLID then 6
      else 7 := by
  simp only [deciding_rule, first_match]
  by_cases h1 : (state.is_viewport_image_render && !state.draw_background) = true
  · rw [if_pos h1, if_pos h1]; rfl
  rw [if_neg h1, if_neg h1]
  by_cases h2 : state.space_type = eSpace_Type.SPACE_IMAGE
  · rw [if_pos h2, if_pos (by simpa using h2)]; rfl
  rw [if_neg h2, if_neg (by simpa using h2)]
  by_cases h3 : state.space_type = eSpace_Type.SPACE_NODE
  · rw [if_pos h3, if_pos (by simpa using h3)]; rfl
  rw [if_neg h3, if_neg (by simpa using h3)]
  by_cases h4 : state.draw_background = false
  · rw [if_pos h4, if_pos (by simpa using h4)]; rfl
  rw [if_neg h4, if_neg (by simpa using h4)]
  by_cases h5 : state.shading_background_type = c.V3D_SHADING_BACKGROUND_WORLD ∧
      state.world.isSome = true
  · rw [if_pos h5, if_pos (by simpa using h5)]; rfl
  rw [if_neg h5, if_neg (by simpa using h5)]
  by_cases h6 : state.shading_background_type = c.V3D_SHADING_BACKGROUND_VIEWPORT ∧
      state.shading_type ≤ c.OB_SOLID
  · rw [if_pos h6, if_pos (by simpa using h6)]; rfl
  rw [if_neg h6, if_neg (by simpa using h6)]
  rfl

theorem poll_state_irrelevant (f : Frame) (state : State) (theme : Int) (w : World) :
    poll { f with state := state, theme := theme } w = poll f w := rfl

theorem count_cube_begin_sync (c : Decls) (f : Frame) (w : World) :
    (begin_sync c f w).bg_ps_.count PassCmd.draw_cube_solid =
      if clip_active f.state = true then 1 else 0 := by
  rw [begin_sync_bg_ps]
  unfold clip_cmds bind_cmds clip_active
  cases f.state.rv3d with
  | none =>
    simp only [List.nil_append, Bool.false_eq_true, if_false]
    split_ifs <;> simp
  | some rv3d =>
    by_cases hc : f.state.clipping_plane_count ≠ 0 ∧ rv3d.clipbb ≠ 0
    · have hc2 : (decide (f.state.clipping_plane_count ≠ 0) && decide (rv3d.clipbb ≠ 0)) = true := by
        simpa using hc
      simp only [if_pos hc, hc2, if_true]
      split_ifs <;> simp
    · have hc2 : ¬ (decide (f.state.clipping_plane_count ≠ 0) && decide (rv3d.clipbb ≠ 0)) = true := by
        simpa using hc
      simp only [if_neg hc, if_neg hc2]
      split_ifs <;> simp

theorem texture_calls_frame_noop (c : Decls) (f : Frame) (w : World)
    (h : read_record f w = none ∨ read_record f w = some w.GlassLinkShared) :
    texture_calls (frame_events c f w) = [] := by
  rw [(frame_noop c f w h).1, texture_calls_append, texture_calls_init_events,
    texture_calls_draw_events]
  rfl

theorem mirrors_begin_sync (c : Decls) (f : Frame) (w : World) (h : mirrors w) :
    mirrors (begin_sync c f w) := by
  have noop : (read_record f w = none ∨ read_record f w = some w.GlassLinkShared) →
      mirrors (begin_sync c f w) := by
    intro hn
    obtain ⟨_, e2, e3, _⟩ := frame_noop c f w hn
    have e5 := texture_calls_frame_noop c f w hn
    unfold mirrors
    rw [e2, e3, begin_sync_trace_append]
    refine ⟨?_, h.2⟩
    intro hv
    obtain ⟨pre, old, post, h1, h2⟩ := h.1 hv
    refine ⟨pre, old, post ++ frame_events c f w, ?_, ?_⟩
    · rw [h1, List.append_assoc]
    · rw [texture_calls_append, h2, e5]
      rfl
  cases hr : read_record f w with
  | none => exact noop (Or.inl hr)
  | some D =>
    by_cases hD : D = w.GlassLinkShared
    · exact noop (Or.inr (hD ▸ hr))
    by_cases hv : D.SharedTexHandles.get 0 ≠ 0 ∧ D.SharedTexSize ≠ 0
    · obtain ⟨e1, e2, _, _⟩ := frame_import c f w D hr hD hv.1 hv.2
      unfold mirrors
      rw [e2]
      constructor
      · intro _
        refine ⟨w.trace ++ init_events f w, w.GlassLinkTexs, draw_events c f (poll f w), ?_,
          texture_calls_draw_events _ _ _⟩
        rw [begin_sync_trace_append, e1]
        simp only [List.append_assoc]
      · intro hf
        exfalso
        have : valid_record D = true := by
          unfold valid_record
          simpa using hv
        rw [this] at hf
        cases hf
    · obtain ⟨_, e2, _, e4⟩ := frame_teardown c f w D hr hD (by tauto)
      unfold mirrors
      rw [e2, e4]
      constructor
      · intro ht
        exfalso
        apply hv
        unfold valid_record at ht
        simpa using ht
      · intro _
        rfl

theorem mirrors_init : mirrors World.init := by
  constructor
  · intro h
    cases h
  · intro _
    rfl

theorem mirrors_run (c : Decls) (fs : List Frame) (w : World) (h : mirrors w) :
    mirrors (run c fs w) := by
  induction fs generalizing w with
  | nil => exact h
  | cons f fs ih => exact ih (begin_sync c f w) (mirrors_begin_sync c f w h)

theorem all_created_append (a b : List Event) :
    all_created (a ++ b) = (all_created a && all_created b) := by
  simp [all_created, List.all_append]

theorem all_created_import_calls (D : CGlassLinkShared) (old new : Arr3 Nat)
    (h : all_created (import_calls D old new) = true) :
    new.get 0 ≠ 0 ∧ new.get 1 ≠ 0 ∧ new.get 2 ≠ 0 := by
  unfold import_calls at h
  simp only [all_created_append, Bool.and_eq_true] at h
  obtain ⟨⟨⟨⟨⟨_, h0⟩, _⟩, h1⟩, _⟩, h2⟩ := h
  simp only [all_created, List.all_cons, List.all_nil, Bool.and_true, decide_eq_true_eq] at h0 h1 h2
  exact ⟨h0, h1, h2⟩

theorem all_or_none_begin_sync (c : Decls) (f : Frame) (w : World)
    (hc : all_created (frame_events c f w) = true) (h : all_or_none w.GlassLinkTexs) :
    all_or_none (begin_sync c f w).GlassLinkTexs := by
  cases hr : read_record f w with
  | none =>
    rw [(frame_noop c f w (Or.inl hr)).2.2.1]
    exact h
  | some D =>
    by_cases hD : D = w.GlassLinkShared
    · rw [(frame_noop c f w (Or.inr (hD ▸ hr))).2.2.1]
      exact h
    by_cases hv : D.SharedTexHandles.get 0 ≠ 0 ∧ D.SharedTexSize ≠ 0
    · rw [(frame_import c f w D hr hD hv.1 hv.2).1] at hc
      simp only [all_created_append, Bool.and_eq_true] at hc
      exact Or.inr (all_created_import_calls _ _ _ hc.1.2)
    · rw [(frame_teardown c f w D hr hD (by tauto)).2.2.2]
      exact Or.inl ⟨rfl, rfl, rfl⟩

theorem all_or_none_run (c : Decls) (fs : List Frame)
    (hc : all_created (run c fs World.init).trace = true) :
    all_or_none (run c fs World.init).GlassLinkTexs := by
  induction fs using List.reverseRecOn with
  | nil => exact Or.inl ⟨rfl, rfl, rfl⟩
  | append_singleton fs f ih =>
    rw [run_append] at hc ⊢
    rw [begin_sync_trace_append, all_created_append, Bool.and_eq_true] at hc
    exact all_or_none_begin_sync c f _ hc.2 (ih hc.1)

theorem all_or_none_get (texs : Arr3 Nat) (h : all_or_none texs) (i : Nat) (hi : i < 3) :
    (texs.get 0 = 0 ↔ texs.get i = 0) := by
  rcases h with ⟨h0, h1, h2⟩ | ⟨h0, h1, h2⟩
  · rcases i with _ | _ | _ | i
    · simp
    · simp [h0, h1]
    · simp [h0, h2]
    · omega
  · rcases i with _ | _ | _ | i
    · simp
    · simp [h0, h1]
    · simp [h0, h2]
    · omega

theorem resolve_glasslink (c : Decls) (state : State) (theme : Int) (texs : Arr3 Nat)
    (h : (resolve c state theme texs).background_type = BackgroundType.BG_GLASSLINK) :
    texs.get 0 ≠ 0 := by
  rw [resolve_background_type] at h
  split_ifs at h with _ _ _ _ _ _ _ _ h9
  exact h9

theorem resolve_pass_state_mask (c : Decls) (state : State) (theme : Int) (texs : Arr3 Nat) :
    (resolve c state theme texs).pass_state =
      if (resolve c state theme texs).background_type = BackgroundType.BG_MASK then
        c.DRW_STATE_WRITE_COLOR ||| c.DRW_STATE_BLEND_MUL
      else c.DRW_STATE_WRITE_COLOR ||| c.DRW_STATE_BLEND_BACKGROUND := by
  rw [resolve_pass_state, resolve_background_type]
  split_ifs <;> first | rfl | simp_all

/-- Where the slots are all empty or all non-empty, the test of slot 0 on line
148 is the test of the slot at the rotating index: a frame that reaches rule 7
with the single-colour theme pushes GLASSLINK when the selected slot holds a
texture and SOLID when it is empty, with no colour override. -/
theorem link_gating_when_slots_agree (c : Decls) (f : Frame) (w : World)
    (hd : c.theme_labels_distinct) (h7 : reaches_rule7 c f.state)
    (ht : f.theme = c.TH_BACKGROUND_SINGLE_COLOR)
    (ha : all_or_none (begin_sync c f w).GlassLinkTexs) (hi : w.iGlassLinkTex < 3) :
    pushed_bgType (begin_sync c f w).bg_ps_ =
      [if (begin_sync c f w).GlassLinkTexs.get w.iGlassLinkTex ≠ 0 then
        BackgroundType.BG_GLASSLINK else BackgroundType.BG_SOLID] ∧
    pushed_colorOverride (begin_sync c f w).bg_ps_ =
      [⟨float32.zero, float32.zero, float32.zero, float32.zero⟩] := by
  obtain ⟨h1, h2, h3, h4, h5, h6⟩ := h7
  obtain ⟨d1, d2, _⟩ := hd
  have h1' : ¬ (f.state.is_viewport_image_render && !f.state.draw_background) = true := by
    simpa using h1
  have h4' : ¬ f.state.draw_background = false := by simp [h4]
  have hiff := all_or_none_get _ ha w.iGlassLinkTex hi
  rw [pushed_bgType_begin_sync, pushed_colorOverride_begin_sync, resolve_background_type,
    resolve_color_override]
  rw [if_neg h1', if_neg h2, if_neg h3, if_neg h4', if_neg h5, if_neg h6, if_neg (ht ▸ d1),
    if_neg (ht ▸ d2), if_neg h1', if_neg h2, if_neg h3, if_neg h4', dif_neg h5, if_neg h6]
  refine ⟨?_, rfl⟩
  rw [begin_sync_texs] at hiff ⊢
  by_cases h0 : (poll f w).GlassLinkTexs.get 0 = 0
  · rw [if_neg (not_not.2 h0), if_neg (not_not.2 (hiff.1 h0))]
  · rw [if_pos h0, if_pos (fun hz => h0 (hiff.2 hz))]

/-! ## The background mode (claims C1 to C4) -/

/-- C1: every call of `begin_sync` pushes exactly one background mode, and
that mode is an outcome of the first rule of the spec's table (rules 1 to 7 in
order) whose condition holds. -/
theorem C1_mode_is_first_matching_rule (c : Decls) (f : Frame) (w : World) :
    ∃ m, pushed_bgType (begin_sync c f w).bg_ps_ = [m] ∧
      ∀ allowed, first_match (spec_rules c f.state f.theme) = some allowed → m ∈ allowed := by
  refine ⟨_, pushed_bgType_begin_sync c f w, ?_⟩
  intro allowed
  rw [resolve_background_type]
  simp only [spec_rules, first_match]
  by_cases h1 : (f.state.is_viewport_image_render && !f.state.draw_background) = true
  · rw [if_pos h1, if_pos h1]; rintro ⟨rfl⟩; simp
  rw [if_neg h1, if_neg h1]
  by_cases h2 : f.state.space_type = eSpace_Type.SPACE_IMAGE
  · rw [if_pos h2, if_pos (by simpa using h2)]; rintro ⟨rfl⟩; simp
  rw [if_neg h2, if_neg (by simpa using h2)]
  by_cases h3 : f.state.space_type = eSpace_Type.SPACE_NODE
  · rw [if_pos h3, if_pos (by simpa using h3)]; rintro ⟨rfl⟩; simp
  rw [if_neg h3, if_neg (by simpa using h3)]
  by_cases h4 : f.state.draw_background = false
  · rw [if_pos h4, if_pos (by simpa using h4)]; rintro ⟨rfl⟩; simp
  rw [if_neg h4, if_neg (by simpa using h4)]
  by_cases h5 : f.state.shading_background_type = c.V3D_SHADING_BACKGROUND_WORLD ∧
      f.state.world.isSome = true
  · rw [if_pos h5, if_pos (by simpa using h5)]; rintro ⟨rfl⟩; simp
  rw [if_neg h5, if_neg (by simpa using h5)]
  by_cases h6 : f.state.shading_background_type = c.V3D_SHADING_BACKGROUND_VIEWPORT ∧
      f.state.shading_type ≤ c.OB_SOLID
  · rw [if_pos h6, if_pos (by simpa using h6)]; rintro ⟨rfl⟩; simp
  rw [if_neg h6, if_neg (by simpa using h6)]
  by_cases h7 : f.theme = c.TH_BACKGROUND_GRADIENT_LINEAR
  · rw [if_pos h7, if_pos (by simpa using h7)]; rintro ⟨rfl⟩; simp
  rw [if_neg h7, if_neg (by simpa using h7)]
  by_cases h8 : f.theme = c.TH_BACKGROUND_GRADIENT_RADIAL
  · rw [if_pos h8, if_pos (by simpa using h8)]; rintro ⟨rfl⟩; simp
  rw [if_neg h8, if_neg (by simpa using h8)]
  by_cases h9 : f.theme = c.TH_BACKGROUND_SINGLE_COLOR
  · rw [if_pos (by simpa using h9)]; rintro ⟨rfl⟩
    split_ifs <;> simp
  · rw [if_neg (by simpa using h9)]; intro h; cases h

/-- C2 (the code at two failing inputs): the mode is gated on slot 0 and not on
the slot at the rotating index. Both frames below reach rule 7 with the
single-colour theme and find index 1. After an import whose creation failed
for slot 1 only, the slots are (1, 0, 2): the selected slot is empty, nothing
is waited on or bound as glassLink, and yet the mode pushed is GLASSLINK.
After an import whose creation failed for slot 0 only, the slots are
(0, 1, 2): the selected texture is waited on and bound as glassLink, and yet
the mode pushed is SOLID. -/
theorem C2_mode_gate_ignores_selected_slot :
    reaches_rule7 Decls.sample ex_frame.state ∧
    ex_frame.theme = Decls.sample.TH_BACKGROUND_SINGLE_COLOR ∧
    ((run Decls.sample [ex_frame_fail1] World.init).iGlassLinkTex = 1 ∧
      (begin_sync Decls.sample ex_frame
        (run Decls.sample [ex_frame_fail1] World.init)).GlassLinkTexs = ⟨1, 0, 2⟩ ∧
      fence_calls (frame_events Decls.sample ex_frame
        (run Decls.sample [ex_frame_fail1] World.init)) = [] ∧
      pushed_bgType (begin_sync Decls.sample ex_frame
        (run Decls.sample [ex_frame_fail1] World.init)).bg_ps_ =
          [BackgroundType.BG_GLASSLINK]) ∧
    ((run Decls.sample [ex_frame_fail0] World.init).iGlassLinkTex = 1 ∧
      (begin_sync Decls.sample ex_frame
        (run Decls.sample [ex_frame_fail0] World.init)).GlassLinkTexs = ⟨0, 1, 2⟩ ∧
      fence_calls (frame_events Decls.sample ex_frame
        (run Decls.sample [ex_frame_fail0] World.init)) =
          [Event.wait_semaphore 1, Event.pass (PassCmd.bind_texture_glassLink 1 1)] ∧
      pushed_bgType (begin_sync Decls.sample ex_frame
        (run Decls.sample [ex_frame_fail0] World.init)).bg_ps_ =
          [BackgroundType.BG_SOLID]) ∧
    BackgroundType.BG_SOLID ≠ BackgroundType.BG_GLASSLINK := by
  unfold reaches_rule7
  decide

/-- C3: when `is_viewport_image_render` is set and `draw_background` is not,
`begin_sync` pushes mode SOLID and colour override (0, 0, 0, 1), whatever the
rest of the context, the theme value and the state of the object are. -/
theorem C3_image_render_without_background (c : Decls) (f : Frame) (w : World)
    (hr : f.state.is_viewport_image_render = true) (hb : f.state.draw_background = false) :
    pushed_bgType (begin_sync c f w).bg_ps_ = [BackgroundType.BG_SOLID] ∧
    pushed_colorOverride (begin_sync c f w).bg_ps_ =
      [⟨float32.zero, float32.zero, float32.zero, float32.one⟩] := by
  have h1 : (f.state.is_viewport_image_render && !f.state.draw_background) = true := by
    simp [hr, hb]
  rw [pushed_bgType_begin_sync, pushed_colorOverride_begin_sync, resolve_background_type,
    resolve_color_override, if_pos h1, if_pos h1]
  exact ⟨rfl, rfl⟩

/-- Witness for C3: an image render without background, in a node editor
context, from the state left by a successful import. -/
theorem C3_image_render_without_background_witness :
    ex_state_node_render.is_viewport_image_render = true ∧
    ex_state_node_render.draw_background = false ∧
    pushed_bgType (begin_sync Decls.sample { ex_frame with state := ex_state_node_render }
      (run Decls.sample [ex_frame] World.init)).bg_ps_ = [BackgroundType.BG_SOLID] ∧
    pushed_colorOverride (begin_sync Decls.sample { ex_frame with state := ex_state_node_render }
      (run Decls.sample [ex_frame] World.init)).bg_ps_ =
      [⟨float32.zero, float32.zero, float32.zero, float32.one⟩] :=
  ⟨rfl, rfl, C3_image_render_without_background Decls.sample
    { ex_frame with state := ex_state_node_render } (run Decls.sample [ex_frame] World.init)
    rfl rfl⟩

/-- C4 (as stated, refuted): it is not the case that every node editor context
resolves to MASK with the multiply blend state: a node editor context that is
an image render without background matches rule 1 first and resolves to
SOLID. -/
theorem C4_node_editor_counterexample :
    ¬ ∀ (c : Decls) (f : Frame) (w : World),
      f.state.space_type = eSpace_Type.SPACE_NODE →
        pushed_bgType (begin_sync c f w).bg_ps_ = [BackgroundType.BG_MASK] ∧
        fill_draw_states (begin_sync c f w).bg_ps_ none =
          [some (c.DRW_STATE_WRITE_COLOR ||| c.DRW_STATE_BLEND_MUL)] := by
  intro h
  have h1 := (h Decls.sample { ex_frame with state := ex_state_node_render } World.init rfl).1
  revert h1
  decide

/-- C4 (amended): for every node editor context that rule 1 does not match
(not an image render with `draw_background` off), `begin_sync` pushes mode MASK
and the fill draw runs with `DRW_STATE_WRITE_COLOR | DRW_STATE_BLEND_MUL`,
whatever the theme value and the link textures are. -/
theorem C4_node_editor_mask (c : Decls) (f : Frame) (w : World)
    (hn : f.state.space_type = eSpace_Type.SPACE_NODE)
    (h1 : ¬ (f.state.is_viewport_image_render = true ∧ f.state.draw_background = false)) :
    pushed_bgType (begin_sync c f w).bg_ps_ = [BackgroundType.BG_MASK] ∧
    fill_draw_states (begin_sync c f w).bg_ps_ none =
      [some (c.DRW_STATE_WRITE_COLOR ||| c.DRW_STATE_BLEND_MUL)] := by
  have h1' : ¬ (f.state.is_viewport_image_render && !f.state.draw_background) = true := by
    simpa using h1
  have h2 : ¬ f.state.space_type = eSpace_Type.SPACE_IMAGE := by rw [hn]; decide
  rw [pushed_bgType_begin_sync, fill_draw_states_begin_sync, resolve_background_type,
    resolve_pass_state, if_neg h1', if_neg h2, if_pos hn, if_neg h1', if_neg h2, if_pos hn]
  exact ⟨rfl, rfl⟩

/-- Witness for C4 (amended): a node editor context with the background drawn. -/
theorem C4_node_editor_mask_witness :
    ex_state_node.space_type = eSpace_Type.SPACE_NODE ∧
    ¬ (ex_state_node.is_viewport_image_render = true ∧ ex_state_node.draw_background = false) ∧
    pushed_bgType (begin_sync Decls.sample { ex_frame with state := ex_state_node }
      World.init).bg_ps_ = [BackgroundType.BG_MASK] ∧
    fill_draw_states (begin_sync Decls.sample { ex_frame with state := ex_state_node }
      World.init).bg_ps_ none =
      [some (Decls.sample.DRW_STATE_WRITE_COLOR ||| Decls.sample.DRW_STATE_BLEND_MUL)] :=
  ⟨rfl, by decide, C4_node_editor_mask Decls.sample { ex_frame with state := ex_state_node }
    World.init rfl (by decide)⟩

/-! ## The GlassLink block (claims C5 to C10) -/

/-- C5: if two consecutive calls of `begin_sync` read the same record `D` from
the mapping, the second call makes no texture call (no creation, no free),
does not release the mapping, and leaves the snapshot, the three slots and the
live textures as they were; for every starting state and every `D`. -/
theorem C5_polling_is_idempotent (c : Decls) (f1 f2 : Frame) (w : World) (D : CGlassLinkShared)
    (h1 : read_record f1 w = some D) (h2 : read_record f2 (begin_sync c f1 w) = some D) :
    texture_calls (frame_events c f2 (begin_sync c f1 w)) = [] ∧
    Event.shm_release ∉ frame_events c f2 (begin_sync c f1 w) ∧
    (begin_sync c f2 (begin_sync c f1 w)).GlassLinkShared =
      (begin_sync c f1 w).GlassLinkShared ∧
    (begin_sync c f2 (begin_sync c f1 w)).GlassLinkTexs = (begin_sync c f1 w).GlassLinkTexs ∧
    (begin_sync c f2 (begin_sync c f1 w)).live = (begin_sync c f1 w).live := by
  have hs := snapshot_after_read c f1 w D h1
  obtain ⟨e1, e2, e3, e4⟩ := frame_noop c f2 (begin_sync c f1 w) (Or.inr (hs.symm ▸ h2))
  refine ⟨?_, ?_, e2, e3, e4⟩
  · rw [e1, texture_calls_append, texture_calls_init_events, texture_calls_draw_events]
    rfl
  · rw [e1, List.mem_append]
    rintro (h | h)
    · unfold init_events at h
      split_ifs at h <;> simp at h
    · exact release_not_mem_draw_events _ _ _ h

/-- Witness for C5: the same valid record read in the first two frames. -/
theorem C5_polling_is_idempotent_witness :
    read_record ex_frame World.init = some ex_shared ∧
    read_record ex_frame (begin_sync Decls.sample ex_frame World.init) = some ex_shared ∧
    texture_calls
      (frame_events Decls.sample ex_frame (begin_sync Decls.sample ex_frame World.init)) = [] ∧
    Event.shm_release ∉
      frame_events Decls.sample ex_frame (begin_sync Decls.sample ex_frame World.init) ∧
    (begin_sync Decls.sample ex_frame (begin_sync Decls.sample ex_frame World.init)).GlassLinkShared
      = (begin_sync Decls.sample ex_frame World.init).GlassLinkShared ∧
    (begin_sync Decls.sample ex_frame (begin_sync Decls.sample ex_frame World.init)).GlassLinkTexs
      = (begin_sync Decls.sample ex_frame World.init).GlassLinkTexs ∧
    (begin_sync Decls.sample ex_frame (begin_sync Decls.sample ex_frame World.init)).live
      = (begin_sync Decls.sample ex_frame World.init).live :=
  ⟨by decide, by decide,
    C5_polling_is_idempotent Decls.sample ex_frame ex_frame World.init ex_shared (by decide)
      (by decide)⟩

/-- C6: a record `D` read from the mapping that has the handles, fence and
size of the stored snapshot (first handle non-null, size non-zero) but another
width or height is a change: `D` becomes the snapshot, and the texture calls
of the frame are, slot by slot, the free of the texture held before (if any)
followed by a creation call with the width, height, handle, size and fence of
`D`; each slot then holds the result of its creation call, a texture that did
not exist before, or nothing when the creation failed. -/
theorem C6_full_record_sensitivity (c : Decls) (f : Frame) (w : World) (D : CGlassLinkShared)
    (hr : read_record f w = some D)
    (_hh : D.SharedTexHandles = w.GlassLinkShared.SharedTexHandles)
    (_hf : D.SharedFenceHandle = w.GlassLinkShared.SharedFenceHandle)
    (_hz : D.SharedTexSize = w.GlassLinkShared.SharedTexSize)
    (h0 : D.SharedTexHandles.get 0 ≠ 0) (hs : D.SharedTexSize ≠ 0)
    (hd : D.Width ≠ w.GlassLinkShared.Width ∨ D.Height ≠ w.GlassLinkShared.Height) :
    (begin_sync c f w).GlassLinkShared = D ∧
    texture_calls (frame_events c f w) =
      import_calls D w.GlassLinkTexs (begin_sync c f w).GlassLinkTexs ∧
    ∀ i, i < 3 →
      ((begin_sync c f w).GlassLinkTexs.get i = 0 ∧ f.createOk.get i = false ∨
        w.created < (begin_sync c f w).GlassLinkTexs.get i ∧ f.createOk.get i = true) := by
  have hne : D ≠ w.GlassLinkShared := by
    intro h
    rw [h] at hd
    tauto
  obtain ⟨e1, e2, _, e4⟩ := frame_import c f w D hr hne h0 hs
  refine ⟨e2, ?_, e4⟩
  rw [e1, texture_calls_append, texture_calls_append, texture_calls_init_events,
    texture_calls_draw_events, texture_calls_import_calls]
  simp

/-- Witness for C6: after a successful import, the same handles are published
with width 5 instead of 4. -/
theorem C6_full_record_sensitivity_witness :
    read_record ex_frame_wide (run Decls.sample [ex_frame] World.init) = some ex_frame_wide.shared ∧
    ex_frame_wide.shared.Width ≠ (run Decls.sample [ex_frame] World.init).GlassLinkShared.Width ∧
    (begin_sync Decls.sample ex_frame_wide
      (run Decls.sample [ex_frame] World.init)).GlassLinkShared = ex_frame_wide.shared ∧
    texture_calls (frame_events Decls.sample ex_frame_wide
        (run Decls.sample [ex_frame] World.init)) =
      import_calls ex_frame_wide.shared (run Decls.sample [ex_frame] World.init).GlassLinkTexs
        (begin_sync Decls.sample ex_frame_wide
          (run Decls.sample [ex_frame] World.init)).GlassLinkTexs ∧
    ∀ i, i < 3 →
      ((begin_sync Decls.sample ex_frame_wide
          (run Decls.sample [ex_frame] World.init)).GlassLinkTexs.get i = 0 ∧
          ex_frame_wide.createOk.get i = false ∨
        (run Decls.sample [ex_frame] World.init).created <
          (begin_sync Decls.sample ex_frame_wide
            (run Decls.sample [ex_frame] World.init)).GlassLinkTexs.get i ∧
          ex_frame_wide.createOk.get i = true) :=
  ⟨by decide, by decide,
    C6_full_record_sensitivity Decls.sample ex_frame_wide
      (run Decls.sample [ex_frame] World.init) ex_frame_wide.shared (by decide) (by decide)
      (by decide) (by decide) (by decide) (by decide) (Or.inl (by decide))⟩

/-- C7: when the record `D` read from the mapping differs from the snapshot and
has a null first handle or a zero size, the texture calls of the frame are
exactly one free per non-empty slot (no creation); hence every texture is
freed as many times as slots held it, once when no texture is held twice; all
three slots are empty afterwards, and the mapping has been released. -/
theorem C7_teardown_complete (c : Decls) (f : Frame) (w : World) (D : CGlassLinkShared)
    (hr : read_record f w = some D) (hne : D ≠ w.GlassLinkShared)
    (ht : D.SharedTexHandles.get 0 = 0 ∨ D.SharedTexSize = 0) :
    texture_calls (frame_events c f w) = (held w).map Event.texture_free ∧
    (∀ t, (freed (frame_events c f w)).count t = (held w).count t) ∧
    ((held w).Nodup → ∀ t, t ∈ held w → (freed (frame_events c f w)).count t = 1) ∧
    (begin_sync c f w).GlassLinkTexs = ⟨0, 0, 0⟩ ∧
    Event.shm_release ∈ frame_events c f w ∧
    (begin_sync c f w).SharedMem = false := by
  obtain ⟨e1, _, e3, e4⟩ := frame_teardown c f w D hr hne ht
  have hfr : freed (frame_events c f w) = held w := by
    rw [e1, freed_append, freed_append, freed_append, freed_draw_events, freed_map_free]
    have : freed (init_events f w) = [] := by
      unfold init_events
      split_ifs <;> rfl
    rw [this]
    simp [freed]
  refine ⟨?_, ?_, ?_, e4, ?_, e3⟩
  · rw [e1, texture_calls_append, texture_calls_append, texture_calls_append,
      texture_calls_init_events, texture_calls_draw_events, texture_calls_map_free]
    simp [texture_calls]
  · intro t
    rw [hfr]
  · intro hn t hm
    rw [hfr]
    exact List.count_eq_one_of_mem hn hm
  · rw [e1]
    simp

/-- Witness for C7: after a successful import the producer zeroes the record. -/
theorem C7_teardown_complete_witness :
    read_record ex_frame_teardown (run Decls.sample [ex_frame] World.init) =
      some CGlassLinkShared.zero ∧
    CGlassLinkShared.zero ≠ (run Decls.sample [ex_frame] World.init).GlassLinkShared ∧
    held (run Decls.sample [ex_frame] World.init) = [1, 2, 3] ∧
    freed (frame_events Decls.sample ex_frame_teardown
      (run Decls.sample [ex_frame] World.init)) = [1, 2, 3] ∧
    (texture_calls (frame_events Decls.sample ex_frame_teardown
          (run Decls.sample [ex_frame] World.init)) =
        (held (run Decls.sample [ex_frame] World.init)).map Event.texture_free ∧
      (∀ t, (freed (frame_events Decls.sample ex_frame_teardown
          (run Decls.sample [ex_frame] World.init))).count t =
        (held (run Decls.sample [ex_frame] World.init)).count t) ∧
      ((held (run Decls.sample [ex_frame] World.init)).Nodup →
        ∀ t, t ∈ held (run Decls.sample [ex_frame] World.init) →
          (freed (frame_events Decls.sample ex_frame_teardown
            (run Decls.sample [ex_frame] World.init))).count t = 1) ∧
      (begin_sync Decls.sample ex_frame_teardown
        (run Decls.sample [ex_frame] World.init)).GlassLinkTexs = ⟨0, 0, 0⟩ ∧
      Event.shm_release ∈ frame_events Decls.sample ex_frame_teardown
        (run Decls.sample [ex_frame] World.init) ∧
      (begin_sync Decls.sample ex_frame_teardown
        (run Decls.sample [ex_frame] World.init)).SharedMem = false) :=
  ⟨by decide, by decide, by decide, by decide,
    C7_teardown_complete Decls.sample ex_frame_teardown (run Decls.sample [ex_frame] World.init)
      CGlassLinkShared.zero (by decide) (by decide) (Or.inl (by decide))⟩

/-- C8: from process start, the call number `n` of `begin_sync` (counting from
0) finds the index `n mod 3` in `iGlassLinkTex`, binds as glassLink only the
slot `n mod 3`, waits only on the texture of that slot, and leaves the index
`(n + 1) mod 3`, whatever the frames are; the index is always below 3, and
the calls 0 to 4 use the indices 0, 1, 2, 0, 1. -/
theorem C8_slot_cycling (c : Decls) (fs : List Frame) (f : Frame) :
    (run c fs World.init).iGlassLinkTex = fs.length % 3 ∧
    (run c fs World.init).iGlassLinkTex < 3 ∧
    (∀ slot tex, PassCmd.bind_texture_glassLink slot tex ∈
        (begin_sync c f (run c fs World.init)).bg_ps_ →
      slot = fs.length % 3 ∧
        tex = (begin_sync c f (run c fs World.init)).GlassLinkTexs.get (fs.length % 3)) ∧
    (∀ t, Event.wait_semaphore t ∈ frame_events c f (run c fs World.init) →
      t = (begin_sync c f (run c fs World.init)).GlassLinkTexs.get (fs.length % 3)) ∧
    (begin_sync c f (run c fs World.init)).iGlassLinkTex = (fs.length + 1) % 3 ∧
    (∀ f0 f1 f2 f3 : Frame,
      [(run c [] World.init).iGlassLinkTex, (run c [f0] World.init).iGlassLinkTex,
        (run c [f0, f1] World.init).iGlassLinkTex, (run c [f0, f1, f2] World.init).iGlassLinkTex,
        (run c [f0, f1, f2, f3] World.init).iGlassLinkTex] = [0, 1, 2, 0, 1]) := by
  have hi := run_init_index c fs
  have hp : (poll f (run c fs World.init)).iGlassLinkTex = fs.length % 3 := by
    rw [poll_index, hi]
  refine ⟨hi, by rw [hi]; omega, ?_, ?_, ?_, ?_⟩
  · intro slot tex hm
    rw [begin_sync_bg_ps] at hm
    rw [begin_sync_texs, ← hp]
    unfold clip_cmds bind_cmds at hm
    cases hrv : f.state.rv3d <;> rw [hrv] at hm <;> simp at hm <;> exact ⟨hm.2.1, hm.2.2⟩
  · intro t hm
    have hm2 := wait_mem_frame_events c f _ t hm
    rw [begin_sync_texs, ← hp]
    unfold draw_events at hm2
    simp only [List.mem_cons, List.mem_append, List.mem_map, reduceCtorEq, false_or, and_false,
      exists_false, or_false] at hm2
    split_ifs at hm2
    · simpa using hm2
    · simp at hm2
  · rw [begin_sync_index, hp]
    omega
  · intro f0 f1 f2 f3
    rw [run_init_index, run_init_index, run_init_index, run_init_index, run_init_index]
    simp

/-- C9: after any sequence of calls from process start the stored snapshot is
the record of the last frame that carried out an import or a teardown (the
all-zero record if there was none); in the next frame the snapshot changes if
and only if that frame carries out an import or a teardown, it then becomes
the record read in that frame, and the action covers the three slots: either
the texture calls are those of an import of slots 0, 1, 2, or every held
texture is freed, the mapping is released and the three slots are empty. -/
theorem C9_snapshot_invariant (c : Decls) (fs : List Frame) (f : Frame) :
    (run c fs World.init).GlassLinkShared = last_acted c fs World.init CGlassLinkShared.zero ∧
    ((begin_sync c f (run c fs World.init)).GlassLinkShared ≠
        (run c fs World.init).GlassLinkShared ↔
      acted (frame_events c f (run c fs World.init)) = true) ∧
    (acted (frame_events c f (run c fs World.init)) = true →
      (begin_sync c f (run c fs World.init)).GlassLinkShared = f.shared ∧
      (texture_calls (frame_events c f (run c fs World.init)) =
          import_calls f.shared (run c fs World.init).GlassLinkTexs
            (begin_sync c f (run c fs World.init)).GlassLinkTexs ∨
        texture_calls (frame_events c f (run c fs World.init)) =
            (held (run c fs World.init)).map Event.texture_free ∧
          Event.shm_release ∈ frame_events c f (run c fs World.init) ∧
          (begin_sync c f (run c fs World.init)).GlassLinkTexs = ⟨0, 0, 0⟩)) := by
  refine ⟨(last_acted_eq_run c fs World.init).symm, ?_, ?_⟩
  · rcases frame_acted c f (run c fs World.init) with ⟨h1, h2, _⟩ | ⟨h1, h2, h3, _⟩
    · rw [h1, h2]
      simp
    · rw [h1, h3]
      simp [h2]
  · intro ha
    rcases frame_acted c f (run c fs World.init) with ⟨h1, _, _⟩ | ⟨_, _, h3, h4⟩
    · rw [h1] at ha
      cases ha
    · exact ⟨h3, h4⟩

/-- C10: after any sequence of calls from process start, the live textures
are the non-empty entries of `GlassLinkTexs`, which are the textures created
and not freed according to the log of calls; they are at most three and no
texture is held in two slots; no texture was created twice or freed twice,
only created textures were freed; and the texture calls of the next frame are
none, or those of an import (for each slot the free of the texture held before
and then the creation of its replacement), or one free per held texture. -/
theorem C10_texture_ownership (c : Decls) (fs : List Frame) (f : Frame) :
    (∀ t, t ∈ (run c fs World.init).live ↔ t ∈ held (run c fs World.init)) ∧
    (∀ t, t ∈ held (run c fs World.init) ↔
      (t ∈ made (run c fs World.init).trace ∧ t ∉ freed (run c fs World.init).trace)) ∧
    (run c fs World.init).live.length ≤ 3 ∧
    (run c fs World.init).live.Nodup ∧
    (held (run c fs World.init)).Nodup ∧
    (made (run c fs World.init).trace).Nodup ∧
    (freed (run c fs World.init).trace).Nodup ∧
    (∀ t, t ∈ freed (run c fs World.init).trace → t ∈ made (run c fs World.init).trace) ∧
    (texture_calls (frame_events c f (run c fs World.init)) = [] ∨
      texture_calls (frame_events c f (run c fs World.init)) =
        import_calls f.shared (run c fs World.init).GlassLinkTexs
          (begin_sync c f (run c fs World.init)).GlassLinkTexs ∨
      texture_calls (frame_events c f (run c fs World.init)) =
        (held (run c fs World.init)).map Event.texture_free) := by
  have h := Owned.run Owned.init c fs
  have hlh : ∀ t, t ∈ (run c fs World.init).live ↔ t ∈ held (run c fs World.init) := by
    intro t
    rw [held_mem_iff, h.slot_live]
  have hn := held_nodup h
  refine ⟨hlh, ?_, ?_, h.live_nodup, hn, h.made_nodup, h.freed_nodup, ?_, ?_⟩
  · intro t
    rw [← hlh, h.live_iff, h.made_iff]
    tauto
  · have hperm : (run c fs World.init).live.Perm (held (run c fs World.init)) :=
      (List.perm_ext_iff_of_nodup h.live_nodup hn).2 hlh
    rw [hperm.length_eq]
    exact held_length_le _
  · intro t ht
    exact (h.made_iff t).2 (h.freed_made t ht)
  · rcases frame_acted c f (run c fs World.init) with ⟨_, _, h3⟩ | ⟨_, _, _, h4 | h4⟩
    · exact Or.inl h3
    · exact Or.inr (Or.inl h4)
    · exact Or.inr (Or.inr h4.1)

/-! ## Failure handling, ordering and the pass (claims C11 to C19) -/

/-- C11: in an import frame (changed record with non-null first handle and
non-zero size), whatever the pattern of creation failures is, the texture calls
cover the three slots in order; slot `i` is empty afterwards exactly when its
creation failed, and holds a texture created in this frame when its creation
succeeded; whether slot `i` ends empty is the same in any other import frame
from the same state with the same outcome for slot `i`, whatever the outcomes
of the other two slots are. -/
theorem C11_import_failure_isolation (c : Decls) (f : Frame) (w : World) (D : CGlassLinkShared)
    (hr : read_record f w = some D) (hne : D ≠ w.GlassLinkShared)
    (h0 : D.SharedTexHandles.get 0 ≠ 0) (hs : D.SharedTexSize ≠ 0) :
    texture_calls (frame_events c f w) =
      import_calls D w.GlassLinkTexs (begin_sync c f w).GlassLinkTexs ∧
    (∀ i, i < 3 → ((begin_sync c f w).GlassLinkTexs.get i = 0 ↔ f.createOk.get i = false)) ∧
    (∀ i, i < 3 → f.createOk.get i = true → w.created < (begin_sync c f w).GlassLinkTexs.get i) ∧
    (∀ (g : Frame) i, i < 3 → g.initOk = f.initOk → g.shared = f.shared →
      g.createOk.get i = f.createOk.get i →
      ((begin_sync c g w).GlassLinkTexs.get i = 0 ↔
        (begin_sync c f w).GlassLinkTexs.get i = 0)) := by
  obtain ⟨e1, _, _, e4⟩ := frame_import c f w D hr hne h0 hs
  refine ⟨?_, ?_, ?_, ?_⟩
  · rw [e1, texture_calls_append, texture_calls_append, texture_calls_init_events,
      texture_calls_draw_events, texture_calls_import_calls]
    simp
  · exact fun i hi => import_slot_empty_iff c f w D hr hne h0 hs i hi
  · intro i hi hok
    rcases e4 i hi with ⟨_, h2⟩ | ⟨h1, _⟩
    · rw [hok] at h2
      cases h2
    · exact h1
  · intro g i hi hgi hgs hgo
    have hrg : read_record g w = some D := (read_record_congr f g w hgi hgs).trans hr
    rw [import_slot_empty_iff c g w D hrg hne h0 hs i hi,
      import_slot_empty_iff c f w D hr hne h0 hs i hi, hgo]

/-- Witness for C11: the first import from the initial state, with the creation
for slot 0 failing. -/
theorem C11_import_failure_isolation_witness :
    read_record ex_frame_fail0 World.init = some ex_shared ∧
    ex_shared ≠ World.init.GlassLinkShared ∧
    (begin_sync Decls.sample ex_frame_fail0 World.init).GlassLinkTexs = ⟨0, 1, 2⟩ ∧
    (texture_calls (frame_events Decls.sample ex_frame_fail0 World.init) =
        import_calls ex_shared World.init.GlassLinkTexs
          (begin_sync Decls.sample ex_frame_fail0 World.init).GlassLinkTexs ∧
      (∀ i, i < 3 → ((begin_sync Decls.sample ex_frame_fail0 World.init).GlassLinkTexs.get i = 0 ↔
        ex_frame_fail0.createOk.get i = false)) ∧
      (∀ i, i < 3 → ex_frame_fail0.createOk.get i = true →
        World.init.created < (begin_sync Decls.sample ex_frame_fail0 World.init).GlassLinkTexs.get i) ∧
      (∀ (g : Frame) i, i < 3 → g.initOk = ex_frame_fail0.initOk →
        g.shared = ex_frame_fail0.shared → g.createOk.get i = ex_frame_fail0.createOk.get i →
        ((begin_sync Decls.sample g World.init).GlassLinkTexs.get i = 0 ↔
          (begin_sync Decls.sample ex_frame_fail0 World.init).GlassLinkTexs.get i = 0))) :=
  ⟨by decide, by decide, by decide,
    C11_import_failure_isolation Decls.sample ex_frame_fail0 World.init ex_shared (by decide)
      (by decide) (by decide) (by decide)⟩

/-- C12: a frame that gets no data from the mapping leaves the snapshot, the
three slots and the live textures unchanged, makes no texture call and does
not release the mapping; and after any number of such frames from process
start the slots are empty, the snapshot is the all-zero record, no texture call
was ever made, and a further such frame that reaches rule 7 with the
single-colour theme pushes SOLID with no colour override. -/
theorem C12_link_unavailable (c : Decls) (g : Frame) (w : World) (fs : List Frame) (f : Frame)
    (hg : read_record g w = none)
    (hfs : link_unavailable c fs World.init = true)
    (hf : read_record f (run c fs World.init) = none)
    (hd : c.theme_labels_distinct) (h7 : reaches_rule7 c f.state)
    (ht : f.theme = c.TH_BACKGROUND_SINGLE_COLOR) :
    ((begin_sync c g w).GlassLinkShared = w.GlassLinkShared ∧
      (begin_sync c g w).GlassLinkTexs = w.GlassLinkTexs ∧
      (begin_sync c g w).live = w.live ∧
      texture_calls (frame_events c g w) = [] ∧
      Event.shm_release ∉ frame_events c g w) ∧
    (run c fs World.init).GlassLinkTexs = ⟨0, 0, 0⟩ ∧
    (run c fs World.init).GlassLinkShared = CGlassLinkShared.zero ∧
    texture_calls (run c fs World.init).trace = [] ∧
    (begin_sync c f (run c fs World.init)).GlassLinkTexs = ⟨0, 0, 0⟩ ∧
    pushed_bgType (begin_sync c f (run c fs World.init)).bg_ps_ = [BackgroundType.BG_SOLID] ∧
    pushed_colorOverride (begin_sync c f (run c fs World.init)).bg_ps_ =
      [⟨float32.zero, float32.zero, float32.zero, float32.zero⟩] := by
  obtain ⟨e1, e2, e3, e4⟩ := frame_noop c g w (Or.inl hg)
  obtain ⟨r1, r2, _, r4⟩ := link_unavailable_run c fs World.init hfs
  obtain ⟨k1, _, k3, _⟩ := frame_noop c f (run c fs World.init) (Or.inl hf)
  have ht0 : (begin_sync c f (run c fs World.init)).GlassLinkTexs = ⟨0, 0, 0⟩ := k3.trans r1
  have hp0 : (poll f (run c fs World.init)).GlassLinkTexs.get 0 = 0 := by
    rw [← begin_sync_texs c, ht0]
    rfl
  refine ⟨⟨e2, e3, e4, ?_, ?_⟩, r1, r2, r4, ht0, ?_⟩
  · rw [e1, texture_calls_append, texture_calls_init_events, texture_calls_draw_events]
    rfl
  · rw [e1, List.mem_append]
    rintro (h | h)
    · exact release_not_mem_init_events _ _ h
    · exact release_not_mem_draw_events _ _ _ h
  · obtain ⟨h1, h2, h3, h4, h5, h6⟩ := h7
    obtain ⟨d1, d2, _⟩ := hd
    have h1' : ¬ (f.state.is_viewport_image_render && !f.state.draw_background) = true := by
      simpa using h1
    have h4' : ¬ f.state.draw_background = false := by simp [h4]
    rw [pushed_bgType_begin_sync, pushed_colorOverride_begin_sync, resolve_background_type,
      resolve_color_override]
    rw [if_neg h1', if_neg h2, if_neg h3, if_neg h4', if_neg h5, if_neg h6, if_neg (ht ▸ d1),
      if_neg (ht ▸ d2), if_neg (not_not.2 hp0), if_neg h1', if_neg h2, if_neg h3, if_neg h4',
      dif_neg h5, if_neg h6]
    exact ⟨rfl, rfl⟩

/-- Witness for C12: three frames from process start in which the segment
cannot be acquired. -/
theorem C12_link_unavailable_witness :
    read_record ex_frame_unavailable World.init = none ∧
    link_unavailable Decls.sample [ex_frame_unavailable, ex_frame_unavailable] World.init = true ∧
    read_record ex_frame_unavailable
      (run Decls.sample [ex_frame_unavailable, ex_frame_unavailable] World.init) = none ∧
    Decls.sample.theme_labels_distinct ∧
    reaches_rule7 Decls.sample ex_frame_unavailable.state ∧
    ex_frame_unavailable.theme = Decls.sample.TH_BACKGROUND_SINGLE_COLOR ∧
    pushed_bgType (begin_sync Decls.sample ex_frame_unavailable
      (run Decls.sample [ex_frame_unavailable, ex_frame_unavailable] World.init)).bg_ps_ =
        [BackgroundType.BG_SOLID] :=
  ⟨by decide, by decide, by decide, by unfold Decls.theme_labels_distinct; decide,
    by unfold reaches_rule7; decide, by decide,
    (C12_link_unavailable Decls.sample ex_frame_unavailable World.init
      [ex_frame_unavailable, ex_frame_unavailable] ex_frame_unavailable (by decide) (by decide)
      (by decide) (by unfold Decls.theme_labels_distinct; decide)
      (by unfold reaches_rule7; decide) (by decide)).2.2.2.2.2.1⟩

/-- C13: among the calls of one frame, the waits on a link semaphore and the
binds of a texture as glassLink are: nothing when the slot at the rotating
index is empty; otherwise one wait on the texture of that slot followed by one
bind of that same texture and slot. So every bind is preceded in its frame by
the wait on the same texture, and a texture is bound exactly when it was
waited on. -/
theorem C13_fence_ordering (c : Decls) (f : Frame) (w : World) :
    fence_calls (frame_events c f w) =
      if (begin_sync c f w).GlassLinkTexs.get w.iGlassLinkTex ≠ 0 then
        [Event.wait_semaphore ((begin_sync c f w).GlassLinkTexs.get w.iGlassLinkTex),
          Event.pass (PassCmd.bind_texture_glassLink w.iGlassLinkTex
            ((begin_sync c f w).GlassLinkTexs.get w.iGlassLinkTex))]
      else [] := by
  obtain ⟨ev, h1, h2⟩ := frame_events_split c f w
  rw [h1, fence_calls_append, h2, fence_calls_draw_events, begin_sync_texs, poll_index]
  rfl

/-- C14: the colour override pushed by `begin_sync` is the one the spec gives
for the deciding rule: (0, 0, 0, 1) for rule 1, the world horizon colour as
stored with alpha 1 for rule 5 (a world is then assigned), the viewport
background colour with alpha 1 for rule 6, and (0, 0, 0, 0) for the rules 2,
3, 4 and 7. -/
theorem C14_color_override_by_rule (c : Decls) (f : Frame) (w : World) :
    pushed_colorOverride (begin_sync c f w).bg_ps_ = [spec_color_override c f.state] ∧
    (deciding_rule c f.state = 5 → f.state.world.isSome = true) ∧
    1 ≤ deciding_rule c f.state ∧ deciding_rule c f.state ≤ 7 := by
  have hrule := deciding_rule_cases c f.state
  refine ⟨?_, ?_, ?_, ?_⟩
  · rw [pushed_colorOverride_begin_sync, resolve_color_override]
    unfold spec_color_override
    by_cases h1 : (f.state.is_viewport_image_render && !f.state.draw_background) = true
    · rw [if_pos h1] at hrule ⊢
      rw [hrule]
    rw [if_neg h1] at hrule ⊢
    by_cases h2 : f.state.space_type = eSpace_Type.SPACE_IMAGE
    · rw [if_pos h2] at hrule ⊢
      rw [hrule]
    rw [if_neg h2] at hrule ⊢
    by_cases h3 : f.state.space_type = eSpace_Type.SPACE_NODE
    · rw [if_pos h3] at hrule ⊢
      rw [hrule]
    rw [if_neg h3] at hrule ⊢
    by_cases h4 : f.state.draw_background = false
    · rw [if_pos h4] at hrule ⊢
      rw [hrule]
    rw [if_neg h4] at hrule ⊢
    by_cases h5 : f.state.shading_background_type = c.V3D_SHADING_BACKGROUND_WORLD ∧
        f.state.world.isSome = true
    · rw [if_pos h5] at hrule
      rw [dif_pos h5, hrule]
      obtain ⟨wc, hw⟩ := Option.isSome_iff_exists.1 h5.2
      simp [hw]
    rw [if_neg h5] at hrule
    rw [dif_neg h5]
    by_cases h6 : f.state.shading_background_type = c.V3D_SHADING_BACKGROUND_VIEWPORT ∧
        f.state.shading_type ≤ c.OB_SOLID
    · rw [if_pos h6] at hrule ⊢
      rw [hrule]
    rw [if_neg h6] at hrule ⊢
    rw [hrule]
  · intro h5
    rw [hrule] at h5
    by_cases hw : f.state.shading_background_type = c.V3D_SHADING_BACKGROUND_WORLD ∧
        f.state.world.isSome = true
    · exact hw.2
    · rw [if_neg hw] at h5
      split_ifs at h5 <;> omega
  · rw [hrule]
    split_ifs <;> omega
  · rw [hrule]
    split_ifs <;> omega

/-- C15: the pass recorded by `begin_sync` ends with the fill draw: the pushes
of the resolved colour override and mode and then `draw_procedural`, the only
one of the pass, drawn with the resolved pass state. The pass holds one clip
bound cube draw, placed before the fill draw, when clipping planes are set and
a clip bounding box is present, and none otherwise. The mode does not change
when the clipping fields of the context change, and the number of cube draws
is the same for any two calls whose clipping condition agrees. -/
theorem C15_clip_bound_orthogonal (c : Decls) (f : Frame) (w : World) :
    (∃ pre, (begin_sync c f w).bg_ps_ =
        pre ++ [PassCmd.push_constant_colorOverride
            (resolve c f.state f.theme (begin_sync c f w).GlassLinkTexs).color_override,
          PassCmd.push_constant_bgType
            (resolve c f.state f.theme (begin_sync c f w).GlassLinkTexs).background_type,
          PassCmd.draw_procedural] ∧
      PassCmd.draw_procedural ∉ pre) ∧
    fill_draw_states (begin_sync c f w).bg_ps_ none =
      [some (resolve c f.state f.theme (begin_sync c f w).GlassLinkTexs).pass_state] ∧
    (begin_sync c f w).bg_ps_.count PassCmd.draw_cube_solid =
      (if clip_active f.state = true then 1 else 0) ∧
    (clip_active f.state = true →
      ∃ a b, (begin_sync c f w).bg_ps_ = a ++ PassCmd.draw_cube_solid :: b ∧
        PassCmd.draw_procedural ∉ a ∧ PassCmd.draw_procedural ∈ b) ∧
    (∀ (n : Int) (r : Option RegionView3D),
      pushed_bgType (begin_sync c
        { f with state := { f.state with clipping_plane_count := n, rv3d := r } } w).bg_ps_ =
      pushed_bgType (begin_sync c f w).bg_ps_) ∧
    (∀ (g : Frame) (v : World), clip_active g.state = clip_active f.state →
      (begin_sync c g v).bg_ps_.count PassCmd.draw_cube_solid =
        (begin_sync c f w).bg_ps_.count PassCmd.draw_cube_solid) := by
  refine ⟨?_, ?_, count_cube_begin_sync c f w, ?_, ?_, ?_⟩
  · rw [begin_sync_texs]
    refine ⟨PassCmd.framebuffer_set :: (clip_cmds c f.state ++
        [PassCmd.state_set (resolve c f.state f.theme (poll f w).GlassLinkTexs).pass_state,
          PassCmd.shader_set_background_fill, PassCmd.bind_ubo_globals,
          PassCmd.bind_ubo_clip_planes, PassCmd.bind_texture_colorBuffer,
          PassCmd.bind_texture_depthBuffer] ++
        bind_cmds (poll f w).GlassLinkTexs (poll f w).iGlassLinkTex), ?_, ?_⟩
    · rw [begin_sync_bg_ps, List.cons_append]
    · unfold clip_cmds bind_cmds
      cases f.state.rv3d with
      | none =>
        simp only [List.nil_append]
        split_ifs <;> simp
      | some rv3d =>
        simp only
        split_ifs <;> simp
  · rw [begin_sync_texs]
    exact fill_draw_states_begin_sync c f w
  · intro hc
    unfold clip_active at hc
    cases hrv : f.state.rv3d with
    | none =>
      rw [hrv] at hc
      cases hc
    | some rv3d =>
      rw [hrv] at hc
      have hc2 : f.state.clipping_plane_count ≠ 0 ∧ rv3d.clipbb ≠ 0 := by simpa using hc
      refine ⟨[PassCmd.framebuffer_set, PassCmd.state_set
          (c.DRW_STATE_WRITE_COLOR ||| c.DRW_STATE_BLEND_ALPHA ||| c.DRW_STATE_CULL_BACK),
        PassCmd.shader_set_background_clip_bound, PassCmd.push_constant_ucolor,
        PassCmd.push_constant_boundbox rv3d.clipbb],
        [PassCmd.state_set (resolve c f.state f.theme (poll f w).GlassLinkTexs).pass_state,
          PassCmd.shader_set_background_fill, PassCmd.bind_ubo_globals,
          PassCmd.bind_ubo_clip_planes, PassCmd.bind_texture_colorBuffer,
          PassCmd.bind_texture_depthBuffer] ++
        bind_cmds (poll f w).GlassLinkTexs (poll f w).iGlassLinkTex ++
        [PassCmd.push_constant_colorOverride
            (resolve c f.state f.theme (poll f w).GlassLinkTexs).color_override,
          PassCmd.push_constant_bgType
            (resolve c f.state f.theme (poll f w).GlassLinkTexs).background_type,
          PassCmd.draw_procedural], ?_, by simp, by simp⟩
      rw [begin_sync_bg_ps]
      unfold clip_cmds
      rw [hrv]
      simp only [if_pos hc2]
      simp
  · intro n r
    rw [pushed_bgType_begin_sync, pushed_bgType_begin_sync, resolve_background_type,
      resolve_background_type]
    rfl
  · intro g v hg
    rw [count_cube_begin_sync, count_cube_begin_sync, hg]

/-- C16: after any sequence of calls from process start, if the stored snapshot
has a non-null first handle and a non-zero size, the latest texture calls of
the log are the import calls made with the width, height, handles, size and
fence of the snapshot, and each slot holds the result of the creation call for
its handle (a texture, or nothing when the creation failed); otherwise the
three slots are empty. In particular, after a frame that read a valid record
`D` the slots hold the results of creation calls made with `D`. -/
theorem C16_slots_mirror_snapshot (c : Decls) (fs : List Frame) :
    (valid_record (run c fs World.init).GlassLinkShared = true →
      ∃ pre old post,
        (run c fs World.init).trace =
          pre ++ import_calls (run c fs World.init).GlassLinkShared old
            (run c fs World.init).GlassLinkTexs ++ post ∧
        texture_calls post = []) ∧
    (valid_record (run c fs World.init).GlassLinkShared = false →
      (run c fs World.init).GlassLinkTexs = ⟨0, 0, 0⟩) ∧
    (∀ (f : Frame) (D : CGlassLinkShared), read_record f (run c fs World.init) = some D →
      valid_record D = true →
      ∃ pre old post,
        (begin_sync c f (run c fs World.init)).trace =
          pre ++ import_calls D old (begin_sync c f (run c fs World.init)).GlassLinkTexs ++ post ∧
        texture_calls post = []) := by
  have h := mirrors_run c fs World.init mirrors_init
  refine ⟨h.1, h.2, ?_⟩
  intro f D hr hv
  have h2 := mirrors_begin_sync c f _ h
  have hs := snapshot_after_read c f _ D hr
  have h3 := h2.1
  rw [hs] at h3
  exact h3 hv

/-- C17: if no creation call of a run from process start failed, the three
slots are all empty or all non-empty before and after the last call; the test
of slot 0 then agrees with the emptiness of the slot at the rotating index,
and when the last call pushes GLASSLINK it binds the non-empty texture of that
slot as glassLink in the same pass. -/
theorem C17_all_or_none_slots (c : Decls) (fs : List Frame) (f : Frame)
    (hok : all_created (run c (fs ++ [f]) World.init).trace = true) :
    all_or_none (run c fs World.init).GlassLinkTexs ∧
    all_or_none (begin_sync c f (run c fs World.init)).GlassLinkTexs ∧
    ((begin_sync c f (run c fs World.init)).GlassLinkTexs.get 0 = 0 ↔
      (begin_sync c f (run c fs World.init)).GlassLinkTexs.get (fs.length % 3) = 0) ∧
    (pushed_bgType (begin_sync c f (run c fs World.init)).bg_ps_ = [BackgroundType.BG_GLASSLINK] →
      (begin_sync c f (run c fs World.init)).GlassLinkTexs.get (fs.length % 3) ≠ 0 ∧
      PassCmd.bind_texture_glassLink (fs.length % 3)
          ((begin_sync c f (run c fs World.init)).GlassLinkTexs.get (fs.length % 3)) ∈
        (begin_sync c f (run c fs World.init)).bg_ps_) := by
  have h2 : all_or_none (begin_sync c f (run c fs World.init)).GlassLinkTexs := by
    rw [← run_append]
    exact all_or_none_run c _ hok
  have h1 : all_or_none (run c fs World.init).GlassLinkTexs := by
    refine all_or_none_run c fs ?_
    rw [run_append, begin_sync_trace_append, all_created_append, Bool.and_eq_true] at hok
    exact hok.1
  have hlt : fs.length % 3 < 3 := Nat.mod_lt _ (by omega)
  have hiff := all_or_none_get _ h2 (fs.length % 3) hlt
  refine ⟨h1, h2, hiff, ?_⟩
  intro hg
  rw [pushed_bgType_begin_sync] at hg
  have h0 := resolve_glasslink c f.state f.theme _ (List.cons.inj hg).1
  rw [← begin_sync_texs c] at h0
  have hsel : (begin_sync c f (run c fs World.init)).GlassLinkTexs.get (fs.length % 3) ≠ 0 :=
    fun hz => h0 (hiff.2 hz)
  refine ⟨hsel, ?_⟩
  have hi : (poll f (run c fs World.init)).iGlassLinkTex = fs.length % 3 := by
    rw [poll_index, run_init_index]
  rw [begin_sync_bg_ps]
  rw [begin_sync_texs] at hsel ⊢
  unfold bind_cmds
  rw [hi, if_pos hsel]
  simp

/-- Witness for C17: two frames from process start, every creation succeeding. -/
theorem C17_all_or_none_slots_witness :
    all_created (run Decls.sample ([ex_frame] ++ [ex_frame]) World.init).trace = true ∧
    pushed_bgType (begin_sync Decls.sample ex_frame
      (run Decls.sample [ex_frame] World.init)).bg_ps_ = [BackgroundType.BG_GLASSLINK] ∧
    (all_or_none (run Decls.sample [ex_frame] World.init).GlassLinkTexs ∧
    all_or_none (begin_sync Decls.sample ex_frame
      (run Decls.sample [ex_frame] World.init)).GlassLinkTexs ∧
    ((begin_sync Decls.sample ex_frame
        (run Decls.sample [ex_frame] World.init)).GlassLinkTexs.get 0 = 0 ↔
      (begin_sync Decls.sample ex_frame
        (run Decls.sample [ex_frame] World.init)).GlassLinkTexs.get ([ex_frame].length % 3) = 0) ∧
    (pushed_bgType (begin_sync Decls.sample ex_frame
        (run Decls.sample [ex_frame] World.init)).bg_ps_ = [BackgroundType.BG_GLASSLINK] →
      (begin_sync Decls.sample ex_frame
        (run Decls.sample [ex_frame] World.init)).GlassLinkTexs.get ([ex_frame].length % 3) ≠ 0 ∧
      PassCmd.bind_texture_glassLink ([ex_frame].length % 3)
          ((begin_sync Decls.sample ex_frame
            (run Decls.sample [ex_frame] World.init)).GlassLinkTexs.get
              ([ex_frame].length % 3)) ∈
        (begin_sync Decls.sample ex_frame (run Decls.sample [ex_frame] World.init)).bg_ps_)) :=
  ⟨by decide, by decide, C17_all_or_none_slots Decls.sample [ex_frame] ex_frame (by decide)⟩

/-- C18: provided the two constants `DRW_STATE_WRITE_COLOR |
DRW_STATE_BLEND_MUL` and `DRW_STATE_WRITE_COLOR | DRW_STATE_BLEND_BACKGROUND`
differ, the fill draw runs with the multiply state if and only if the mode
pushed is MASK, and with the background blend state for every other mode. -/
theorem C18_blend_state_tied_to_mask (c : Decls) (f : Frame) (w : World)
    (hne : c.DRW_STATE_WRITE_COLOR ||| c.DRW_STATE_BLEND_MUL ≠
      c.DRW_STATE_WRITE_COLOR ||| c.DRW_STATE_BLEND_BACKGROUND) :
    (fill_draw_states (begin_sync c f w).bg_ps_ none =
        [some (c.DRW_STATE_WRITE_COLOR ||| c.DRW_STATE_BLEND_MUL)] ↔
      pushed_bgType (begin_sync c f w).bg_ps_ = [BackgroundType.BG_MASK]) ∧
    (pushed_bgType (begin_sync c f w).bg_ps_ ≠ [BackgroundType.BG_MASK] →
      fill_draw_states (begin_sync c f w).bg_ps_ none =
        [some (c.DRW_STATE_WRITE_COLOR ||| c.DRW_STATE_BLEND_BACKGROUND)]) := by
  rw [fill_draw_states_begin_sync, pushed_bgType_begin_sync, resolve_pass_state_mask]
  by_cases hm : (resolve c f.state f.theme (poll f w).GlassLinkTexs).background_type =
      BackgroundType.BG_MASK
  · rw [if_pos hm, hm]
    simp
  · rw [if_neg hm]
    refine ⟨?_, fun _ => rfl⟩
    constructor
    · intro h
      exact absurd (Option.some.inj (List.cons.inj h).1).symm hne
    · intro h
      exact absurd (List.cons.inj h).1 hm

/-- Witness for C18: a node editor frame with the sample constants. -/
theorem C18_blend_state_tied_to_mask_witness :
    Decls.sample.DRW_STATE_WRITE_COLOR ||| Decls.sample.DRW_STATE_BLEND_MUL ≠
      Decls.sample.DRW_STATE_WRITE_COLOR ||| Decls.sample.DRW_STATE_BLEND_BACKGROUND ∧
    pushed_bgType (begin_sync Decls.sample { ex_frame with state := ex_state_node }
      World.init).bg_ps_ = [BackgroundType.BG_MASK] ∧
    ((fill_draw_states (begin_sync Decls.sample { ex_frame with state := ex_state_node }
          World.init).bg_ps_ none =
        [some (Decls.sample.DRW_STATE_WRITE_COLOR ||| Decls.sample.DRW_STATE_BLEND_MUL)] ↔
      pushed_bgType (begin_sync Decls.sample { ex_frame with state := ex_state_node }
        World.init).bg_ps_ = [BackgroundType.BG_MASK]) ∧
    (pushed_bgType (begin_sync Decls.sample { ex_frame with state := ex_state_node }
        World.init).bg_ps_ ≠ [BackgroundType.BG_MASK] →
      fill_draw_states (begin_sync Decls.sample { ex_frame with state := ex_state_node }
          World.init).bg_ps_ none =
        [some (Decls.sample.DRW_STATE_WRITE_COLOR |||
          Decls.sample.DRW_STATE_BLEND_BACKGROUND)])) :=
  ⟨by decide, by decide,
    C18_blend_state_tied_to_mask Decls.sample { ex_frame with state := ex_state_node } World.init
      (by decide)⟩

/-- C19: in a frame that reaches rule 7 with a theme value that is neither the
linear nor the radial gradient, whatever that value is, the mode pushed is
GLASSLINK if slot 0 holds a texture and SOLID otherwise; when the three theme
constants are distinct this is the mode of the same frame with the
single-colour theme. -/
theorem C19_unknown_theme_falls_back (c : Decls) (f : Frame) (w : World)
    (h7 : reaches_rule7 c f.state)
    (hl : f.theme ≠ c.TH_BACKGROUND_GRADIENT_LINEAR)
    (hr : f.theme ≠ c.TH_BACKGROUND_GRADIENT_RADIAL) :
    pushed_bgType (begin_sync c f w).bg_ps_ =
      [if (begin_sync c f w).GlassLinkTexs.get 0 ≠ 0 then BackgroundType.BG_GLASSLINK
        else BackgroundType.BG_SOLID] ∧
    (c.theme_labels_distinct →
      pushed_bgType (begin_sync c f w).bg_ps_ =
        pushed_bgType (begin_sync c { f with theme := c.TH_BACKGROUND_SINGLE_COLOR } w).bg_ps_) := by
  obtain ⟨h1, h2, h3, h4, h5, h6⟩ := h7
  have h1' : ¬ (f.state.is_viewport_image_render && !f.state.draw_background) = true := by
    simpa using h1
  have h4' : ¬ f.state.draw_background = false := by simp [h4]
  have key : ∀ t : Int, t ≠ c.TH_BACKGROUND_GRADIENT_LINEAR →
      t ≠ c.TH_BACKGROUND_GRADIENT_RADIAL →
      (resolve c f.state t (poll f w).GlassLinkTexs).background_type =
        if (poll f w).GlassLinkTexs.get 0 ≠ 0 then BackgroundType.BG_GLASSLINK
        else BackgroundType.BG_SOLID := by
    intro t ht1 ht2
    rw [resolve_background_type, if_neg h1', if_neg h2, if_neg h3, if_neg h4', if_neg h5,
      if_neg h6, if_neg ht1, if_neg ht2]
  constructor
  · rw [pushed_bgType_begin_sync, begin_sync_texs, key f.theme hl hr]
  · rintro ⟨d1, d2, _⟩
    rw [pushed_bgType_begin_sync, pushed_bgType_begin_sync, key f.theme hl hr]
    exact congrArg (fun m => [m]) (key c.TH_BACKGROUND_SINGLE_COLOR d1 d2).symm

/-- Witness for C19: the theme value 7, after a successful import. -/
theorem C19_unknown_theme_falls_back_witness :
    reaches_rule7 Decls.sample ex_frame_theme7.state ∧
    ex_frame_theme7.theme ≠ Decls.sample.TH_BACKGROUND_GRADIENT_LINEAR ∧
    ex_frame_theme7.theme ≠ Decls.sample.TH_BACKGROUND_GRADIENT_RADIAL ∧
    ex_frame_theme7.theme ≠ Decls.sample.TH_BACKGROUND_SINGLE_COLOR ∧
    pushed_bgType (begin_sync Decls.sample ex_frame_theme7 World.init).bg_ps_ =
      [BackgroundType.BG_GLASSLINK] ∧
    (pushed_bgType (begin_sync Decls.sample ex_frame_theme7 World.init).bg_ps_ =
      [if (begin_sync Decls.sample ex_frame_theme7 World.init).GlassLinkTexs.get 0 ≠ 0 then
        BackgroundType.BG_GLASSLINK else BackgroundType.BG_SOLID] ∧
    (Decls.sample.theme_labels_distinct →
      pushed_bgType (begin_sync Decls.sample ex_frame_theme7 World.init).bg_ps_ =
        pushed_bgType (begin_sync Decls.sample
          { ex_frame_theme7 with theme := Decls.sample.TH_BACKGROUND_SINGLE_COLOR }
          World.init).bg_ps_)) :=
  ⟨by unfold reaches_rule7; decide, by decide, by decide, by decide, by decide,
    C19_unknown_theme_falls_back Decls.sample ex_frame_theme7 World.init
      (by unfold reaches_rule7; decide) (by decide) (by decide)⟩

end Overlay
